import Mathlib

/-
Verification of the primality-testing core (fermat.py).

The embedding models Python's arbitrary-precision integers as ℤ (or ℕ for
quantities that are non-negative throughout: the candidate N, the trial
count k, witnesses and exponents).  Python's `%` on a positive modulus
returns a value in [0, modulus), exactly as Lean's `Int.emod`; every claim
restricts the modulus to be positive.  `random.randint(1, N-1)` is modelled
as an injected draw stream `draws : ℕ → ℕ` (trial i uses `draws i`), as the
spec prescribes for the random source.

Python float (IEEE-754 binary64) computations are modelled at value level:
every float value arising in this program is a real number, and the
embedding tracks those exact values, inserting the double-rounding
function where an operation of the source rounds.  Two places compute in
floats: the probability estimators (`1 - (1/(2**k))`, whose double result
saturates at exactly 1.0 for large k), and Miller-Rabin's
`exponent = exponent / 2` (true division, which rounds the halved
exponent to 53 significant bits; all other arithmetic on these
integral-valued floats — the `//`, `%` and comparisons inside `mod_exp`
and the loop guard — is exact at value level).  Floats at or above 2^1024
overflow in the source (`OverflowError`); the embedding covers candidates
below that bound.
-/

/-- Embedding of `mod_exp(x, y, N)` from fermat.py:
`if y == 0: return 1; z = mod_exp(x, y // 2, N);
 if y % 2 == 0: return (z ** 2) % N; else: return (x * (z ** 2)) % N`.
The exponent is ℕ (the contract requires y ≥ 0). -/
def mod_exp (x : ℤ) (y : ℕ) (N : ℤ) : ℤ :=
  if hy : y = 0 then 1
  else
    let z := mod_exp x (y / 2) N
    if y % 2 = 0 then (z ^ 2) % N
    else (x * z ^ 2) % N
termination_by y
decreasing_by exact Nat.div_lt_self (Nat.pos_of_ne_zero hy) one_lt_two

theorem mod_exp_zero (x N : ℤ) : mod_exp x 0 N = 1 := by
  rw [mod_exp]
  simp

theorem mod_exp_pos_eq (x : ℤ) (y : ℕ) (N : ℤ) (hy : y ≠ 0) :
    mod_exp x y N =
      if y % 2 = 0 then (mod_exp x (y / 2) N ^ 2) % N
      else (x * mod_exp x (y / 2) N ^ 2) % N := by
  rw [mod_exp]
  simp [hy]

/-- The result of `mod_exp` is always congruent to `x ^ y` modulo `N`
(including the `y = 0` base case, where the unreduced `1` is returned). -/
theorem mod_exp_modEq (x : ℤ) (N : ℤ) :
    ∀ y : ℕ, mod_exp x y N ≡ x ^ y [ZMOD N] := by
  intro y
  induction y using Nat.strong_induction_on with
  | _ y ih =>
    by_cases hy : y = 0
    · subst hy
      rw [mod_exp_zero, pow_zero]
    · have hlt : y / 2 < y := Nat.div_lt_self (Nat.pos_of_ne_zero hy) one_lt_two
      have hz := ih (y / 2) hlt
      have hmod : ∀ a : ℤ, a % N ≡ a [ZMOD N] := fun a =>
        Int.emod_emod_of_dvd a dvd_rfl
      rw [mod_exp_pos_eq x y N hy]
      by_cases he : y % 2 = 0
      · have hy2 : y / 2 * 2 = y := Nat.div_mul_cancel (Nat.dvd_of_mod_eq_zero he)
        rw [if_pos he]
        calc (mod_exp x (y / 2) N ^ 2) % N
            ≡ mod_exp x (y / 2) N ^ 2 [ZMOD N] := hmod _
          _ ≡ (x ^ (y / 2)) ^ 2 [ZMOD N] := hz.pow 2
          _ = x ^ y := by rw [← pow_mul, hy2]
      · rw [if_neg he]
        have hy2 : y / 2 * 2 + 1 = y := by omega
        calc (x * mod_exp x (y / 2) N ^ 2) % N
            ≡ x * mod_exp x (y / 2) N ^ 2 [ZMOD N] := hmod _
          _ ≡ x * (x ^ (y / 2)) ^ 2 [ZMOD N] := (Int.ModEq.refl x).mul (hz.pow 2)
          _ = x ^ y := by
              rw [← pow_mul, ← pow_succ', hy2]

/-- For a non-zero exponent, the result is reduced: it lies in [0, N) when
N is positive. -/
theorem mod_exp_range (x : ℤ) (y : ℕ) (N : ℤ) (hy : y ≠ 0) (hN : 0 < N) :
    0 ≤ mod_exp x y N ∧ mod_exp x y N < N := by
  rw [mod_exp_pos_eq x y N hy]
  by_cases he : y % 2 = 0
  · rw [if_pos he]
    exact ⟨Int.emod_nonneg _ (by omega), Int.emod_lt_of_pos _ hN⟩
  · rw [if_neg he]
    exact ⟨Int.emod_nonneg _ (by omega), Int.emod_lt_of_pos _ hN⟩

/-- Main functional-correctness lemma for `mod_exp`: for a positive
exponent and positive modulus, the result is exactly `x ^ y % N`. -/
theorem mod_exp_eq_pow_mod (x : ℤ) (y : ℕ) (N : ℤ) (hy : y ≠ 0) (hN : 0 < N) :
    mod_exp x y N = x ^ y % N := by
  obtain ⟨h0, h1⟩ := mod_exp_range x y N hy hN
  have hcong : mod_exp x y N % N = x ^ y % N := mod_exp_modEq x N y
  rw [← hcong, Int.emod_eq_of_lt h0 h1]

/-- One step of the Fermat trial loop from `run_fermat`'s body
(`for i in range(1, k)`).  `iters` is the number of remaining loop
iterations; trial number `i` uses witness `draws i`.  The body is
`a = random.randint(1, N - 1); if mod_exp(a, N - 1, N) != 1: return
"composite"`, and `"prime"` is returned once the loop is exhausted. -/
def fermat_go (N : ℕ) (draws : ℕ → ℕ) : ℕ → ℕ → String
  | 0, _ => "prime"
  | iters + 1, i =>
    if mod_exp (draws i : ℤ) (N - 1) (N : ℤ) ≠ 1 then "composite"
    else fermat_go N draws iters (i + 1)

/-- Embedding of `run_fermat(N, k)`.  Python's `range(1, k)` performs
`k - 1` iterations (truncated at zero), which is `k - 1` in ℕ. -/
def run_fermat (N k : ℕ) (draws : ℕ → ℕ) : String :=
  fermat_go N draws (k - 1) 0

/-- The integer value of the IEEE-754 binary64 double nearest to the
natural number `n` (round to nearest, ties to even), for `n < 2 ^ 1024`.
Naturals below `2 ^ 53` are exactly representable.  In the binade
`[2 ^ s, 2 ^ (s + 1))` with `s ≥ 53` the representable values are the
multiples of the spacing `2 ^ (s - 52)`, and the significand of such a
multiple `d * q` ends in an even bit exactly when `q` is even, which
decides ties.  Python rounds this way both when converting an int to
float and when computing the true division of two ints. -/
def round53 (n : ℕ) : ℕ :=
  if n < 2 ^ 53 then n
  else if 2 * (n % 2 ^ (Nat.log2 n - 52)) < 2 ^ (Nat.log2 n - 52) then
    2 ^ (Nat.log2 n - 52) * (n / 2 ^ (Nat.log2 n - 52))
  else if 2 ^ (Nat.log2 n - 52) < 2 * (n % 2 ^ (Nat.log2 n - 52)) then
    2 ^ (Nat.log2 n - 52) * (n / 2 ^ (Nat.log2 n - 52) + 1)
  else if (n / 2 ^ (Nat.log2 n - 52)) % 2 = 0 then
    2 ^ (Nat.log2 n - 52) * (n / 2 ^ (Nat.log2 n - 52))
  else 2 ^ (Nat.log2 n - 52) * (n / 2 ^ (Nat.log2 n - 52) + 1)

theorem round53_small (n : ℕ) (h : n < 2 ^ 53) : round53 n = n := by
  rw [round53, if_pos h]

/-- Rounding a positive natural to double precision less than doubles it
(the spacing of representable values is far below the value itself);
this bounds the rounded exponent in the descent loop. -/
theorem round53_lt_double (n : ℕ) (hn : n ≠ 0) : round53 n < 2 * n := by
  rw [round53]
  by_cases h : n < 2 ^ 53
  · rw [if_pos h]
    omega
  · rw [if_neg h]
    have hlog : 2 ^ Nat.log2 n ≤ n := by
      rw [Nat.log2_eq_log_two]
      exact Nat.pow_log_le_self 2 hn
    have hs : 53 ≤ Nat.log2 n := by
      by_contra hc
      push_neg at hc
      have hub : n < 2 ^ (Nat.log2 n + 1) := by
        rw [Nat.log2_eq_log_two]
        exact Nat.lt_pow_succ_log_self (by norm_num) n
      have : n < 2 ^ 53 :=
        lt_of_lt_of_le hub (Nat.pow_le_pow_right (by norm_num) (by omega))
      omega
    have hd_lt : 2 ^ (Nat.log2 n - 52) < n :=
      lt_of_lt_of_le (Nat.pow_lt_pow_right (by norm_num) (by omega)) hlog
    have hq : 2 ^ (Nat.log2 n - 52) * (n / 2 ^ (Nat.log2 n - 52)) ≤ n :=
      Nat.mul_div_le n _
    have hsum : 2 ^ (Nat.log2 n - 52) * (n / 2 ^ (Nat.log2 n - 52) + 1) =
        2 ^ (Nat.log2 n - 52) * (n / 2 ^ (Nat.log2 n - 52)) +
          2 ^ (Nat.log2 n - 52) := by ring
    split_ifs <;> omega

/-- Embedding of the `while exponent % 2 == 0 and z == 1` loop of
`run_miller_rabin`: `exponent = exponent / 2; z = mod_exp(a, exponent, N)`,
returning the final value of `z`.  The division is Python's true division
`/`, which produces a float: its value is the double nearest to half the
exponent, i.e. `round53 (exponent / 2)` (the guard has ensured the
exponent is even, so the halved value is an integer before rounding; for
exponents below `2 ^ 54` the halving is exact).  All later operations on
that float are exact at value level, so the loop state stays in ℕ.  For
`exponent = 0` with `z = 1` the source loop would not terminate; that
state is unreachable for any candidate `N ≥ 2`, and the embedding returns
`z` there. -/
def mr_descent (a N : ℕ) (exponent : ℕ) (z : ℤ) : ℤ :=
  if hg : exponent % 2 = 0 ∧ z = 1 then
    if he : exponent = 0 then z
    else
      mr_descent a N (round53 (exponent / 2))
        (mod_exp (a : ℤ) (round53 (exponent / 2)) (N : ℤ))
  else z
termination_by exponent
decreasing_by
  have h2 : exponent / 2 ≠ 0 := by omega
  calc round53 (exponent / 2) < 2 * (exponent / 2) := round53_lt_double _ h2
    _ ≤ exponent := by omega

/-- The values of the exponents passed to `mod_exp` by the `while` loop of
`run_miller_rabin`, in order; it mirrors the guard structure and the
float-rounded halving of `mr_descent` exactly (the arguments are Python
floats, recorded here by their integer values). -/
def mr_descent_exps (a N : ℕ) (exponent : ℕ) (z : ℤ) : List ℕ :=
  if hg : exponent % 2 = 0 ∧ z = 1 then
    if he : exponent = 0 then []
    else (round53 (exponent / 2)) ::
      mr_descent_exps a N (round53 (exponent / 2))
        (mod_exp (a : ℤ) (round53 (exponent / 2)) (N : ℤ))
  else []
termination_by exponent
decreasing_by
  have h2 : exponent / 2 ≠ 0 := by omega
  calc round53 (exponent / 2) < 2 * (exponent / 2) := round53_lt_double _ h2
    _ ≤ exponent := by omega

/-- One step of the Miller-Rabin trial loop from `run_miller_rabin`'s
body: check `mod_exp(a, N - 1, N) == 1`, run the square-root descent
starting from `exponent = N - 1`, `z = 1`, then report `"composite"`
when `z % N != N - 1 and z % N != 1`; otherwise continue with the next
trial.  `"composite"` is also reported when the initial check fails. -/
def mr_go (N : ℕ) (draws : ℕ → ℕ) : ℕ → ℕ → String
  | 0, _ => "prime"
  | iters + 1, i =>
    let a := draws i
    if mod_exp (a : ℤ) (N - 1) (N : ℤ) = 1 then
      let z := mr_descent a N (N - 1) 1
      if z % (N : ℤ) ≠ (N : ℤ) - 1 ∧ z % (N : ℤ) ≠ 1 then "composite"
      else mr_go N draws iters (i + 1)
    else "composite"

/-- Embedding of `run_miller_rabin(N, k)`; as in `run_fermat`, the loop
`for i in range(1, k)` performs `k - 1` iterations. -/
def run_miller_rabin (N k : ℕ) (draws : ℕ → ℕ) : String :=
  mr_go N draws (k - 1) 0

/-- Embedding of `prime_test(N, k) = run_fermat(N, k), run_miller_rabin(N, k)`.
The two sub-tests consume independent draw streams. -/
def prime_test (N k : ℕ) (fdraws mdraws : ℕ → ℕ) : String × String :=
  (run_fermat N k fdraws, run_miller_rabin N k mdraws)

/-- Embedding of `fprobability(k) = 1 - (1 / (2 ** k))`, evaluated as the
source does in IEEE-754 binary64 arithmetic, at value level.  `2 ** k` is
an exact int; `1 / (2 ** k)` is the correctly rounded double of `2⁻ᵏ`,
which is exactly `2⁻ᵏ` for every `k ≤ 1074` (powers of two down to the
smallest subnormal are representable) and `0.0` beyond; the subtraction
`1 - 2⁻ᵏ` is exact for `k ≤ 53` (the spacing of doubles in `[1/2, 1]` is
`2⁻⁵³`) and rounds to exactly `1.0` for every `k ≥ 54` (at `k = 54` by
ties to even, above that because `1.0` is strictly nearest).  The
computed double is therefore `1 - 2⁻ᵏ` for `k ≤ 53` and `1.0` otherwise. -/
def fprobability (k : ℕ) : ℚ :=
  if k ≤ 53 then 1 - 1 / 2 ^ k else 1

/-- Embedding of `mprobability(k) = 1 - (1 / (4 ** k))` in IEEE-754
binary64 arithmetic, at value level.  `1 / (4 ** k)` is the double
`2^(-2k)` (exact for `2k ≤ 1074`, `0.0` beyond), and `1 - 2^(-2k)` is
exact for `2k ≤ 53`, i.e. `k ≤ 26`, rounding to exactly `1.0` for every
`k ≥ 27` (at `k = 27` by ties to even).  The computed double is therefore
`1 - 4⁻ᵏ` for `k ≤ 26` and `1.0` otherwise. -/
def mprobability (k : ℕ) : ℚ :=
  if k ≤ 26 then 1 - 1 / 4 ^ k else 1

/-- Two integers in [0, N) that agree in `ZMod N` are equal. -/
theorem int_eq_of_cast_zmod_eq (N : ℕ) (x y : ℤ) (hx0 : 0 ≤ x) (hx : x < N)
    (hy0 : 0 ≤ y) (hy : y < N) (h : (x : ZMod N) = (y : ZMod N)) : x = y := by
  have h2 : x % (N : ℤ) = y % (N : ℤ) := (ZMod.intCast_eq_intCast_iff' x y N).mp h
  rwa [Int.emod_eq_of_lt hx0 hx, Int.emod_eq_of_lt hy0 hy] at h2

/-- Cast of a `mod_exp` result into `ZMod N` is the corresponding power. -/
theorem mod_exp_cast_zmod (a N y : ℕ) :
    ((mod_exp (a : ℤ) y (N : ℤ) : ℤ) : ZMod N) = (a : ZMod N) ^ y := by
  have h := mod_exp_modEq (a : ℤ) (N : ℤ) y
  have h2 := (ZMod.intCast_eq_intCast_iff _ _ _).mpr h
  rw [h2]
  push_cast
  ring

/-- A witness `1 ≤ a ≤ N - 1` is non-zero in `ZMod N` (for `N ≥ 2`). -/
theorem witness_cast_ne_zero (N a : ℕ) (hN : 2 ≤ N) (ha1 : 1 ≤ a)
    (ha2 : a ≤ N - 1) : (a : ZMod N) ≠ 0 := by
  intro h
  have hdvd : N ∣ a := (ZMod.natCast_zmod_eq_zero_iff_dvd a N).mp h
  have := Nat.le_of_dvd (by omega) hdvd
  omega

/-- Fermat's little theorem at the level of the embedding: for a prime
candidate and any witness in [1, N-1], `mod_exp(a, N-1, N) = 1`. -/
theorem mod_exp_flt (N : ℕ) (hp : N.Prime) (a : ℕ) (ha1 : 1 ≤ a)
    (ha2 : a ≤ N - 1) : mod_exp (a : ℤ) (N - 1) (N : ℤ) = 1 := by
  haveI := Fact.mk hp
  have hN2 : 2 ≤ N := hp.two_le
  have hNZ : (0 : ℤ) < (N : ℤ) := by omega
  have hane := witness_cast_ne_zero N a hN2 ha1 ha2
  have hflt : (a : ZMod N) ^ (N - 1) = 1 := ZMod.pow_card_sub_one_eq_one hane
  have hrange := mod_exp_range (a : ℤ) (N - 1) (N : ℤ) (by omega) hNZ
  refine int_eq_of_cast_zmod_eq N _ 1 hrange.1 hrange.2 (by norm_num)
    (by omega) ?_
  rw [mod_exp_cast_zmod, hflt]
  norm_num

/-- For a prime candidate and a witness whose power `a ^ e` is 1 in
`ZMod N`, the square-root descent ends with `z % N` equal to `1` or
`N - 1` (the only square roots of unity modulo a prime) — provided the
exponent stays below `2 ^ 54`, the range in which the float halvings of
the source are exact. -/
theorem mr_descent_prime (N : ℕ) (hp : N.Prime) (a : ℕ) :
    ∀ e : ℕ, e ≠ 0 → e < 2 ^ 54 → (a : ZMod N) ^ e = 1 →
      mr_descent a N e 1 % (N : ℤ) = 1 ∨
        mr_descent a N e 1 % (N : ℤ) = (N : ℤ) - 1 := by
  haveI := Fact.mk hp
  have hN2 : 2 ≤ N := hp.two_le
  intro e
  induction e using Nat.strong_induction_on with
  | _ e ih =>
    intro he0 he54 hae
    rw [mr_descent]
    by_cases hpar : e % 2 = 0
    · rw [dif_pos ⟨hpar, rfl⟩, dif_neg he0]
      have hr53 : round53 (e / 2) = e / 2 := by
        refine round53_small _ ?_
        have h54 : (2 : ℕ) ^ 54 = 2 * 2 ^ 53 := by norm_num
        omega
      rw [hr53]
      have he2 : 2 * (e / 2) = e := by omega
      have he'0 : e / 2 ≠ 0 := by omega
      have he'lt : e / 2 < e := by omega
      have he'54 : e / 2 < 2 ^ 54 := by omega
      have hNZ : (0 : ℤ) < (N : ℤ) := by omega
      have hz'cast := mod_exp_cast_zmod a N (e / 2)
      have hz'range := mod_exp_range (a : ℤ) (e / 2) (N : ℤ) he'0 hNZ
      by_cases hz1 : mod_exp (a : ℤ) (e / 2) (N : ℤ) = 1
      · rw [hz1]
        refine ih (e / 2) he'lt he'0 he'54 ?_
        rw [← hz'cast, hz1]
        norm_num
      · have hsq : ((a : ZMod N) ^ (e / 2)) * ((a : ZMod N) ^ (e / 2)) = 1 := by
          rw [← pow_add, show e / 2 + e / 2 = e by omega]
          exact hae
        rcases mul_self_eq_one_iff.mp hsq with h1 | h1
        · exfalso
          apply hz1
          refine int_eq_of_cast_zmod_eq N _ 1 hz'range.1 hz'range.2
            (by norm_num) (by omega) ?_
          rw [hz'cast, h1]
          norm_num
        · have hz'val : mod_exp (a : ℤ) (e / 2) (N : ℤ) = (N : ℤ) - 1 := by
            refine int_eq_of_cast_zmod_eq N _ ((N : ℤ) - 1) hz'range.1
              hz'range.2 (by omega) (by omega) ?_
            rw [hz'cast, h1]
            push_cast
            rw [ZMod.natCast_self]
            ring
          rw [mr_descent, dif_neg (fun hc => hz1 hc.2), hz'val]
          right
          exact Int.emod_eq_of_lt (by omega) (by omega)
    · rw [dif_neg (fun hc => hpar hc.1)]
      left
      exact Int.emod_eq_of_lt (by norm_num) (by omega)

/-- For a prime candidate, every iteration of the Fermat trial loop
passes, whatever witnesses are drawn from [1, N-1]. -/
theorem fermat_go_prime (N : ℕ) (hp : N.Prime) (draws : ℕ → ℕ)
    (hd : ∀ i, 1 ≤ draws i ∧ draws i ≤ N - 1) :
    ∀ iters i, fermat_go N draws iters i = "prime" := by
  intro iters
  induction iters with
  | zero => intro i; rfl
  | succ n ih =>
    intro i
    have hflt := mod_exp_flt N hp (draws i) (hd i).1 (hd i).2
    simp only [fermat_go]
    rw [if_neg (by simp [hflt])]
    exact ih (i + 1)

/-- For a prime candidate below the exact-halving range, every iteration
of the Miller-Rabin trial loop passes, whatever witnesses are drawn from
[1, N-1]. -/
theorem mr_go_prime (N : ℕ) (hp : N.Prime) (hN54 : N - 1 < 2 ^ 54)
    (draws : ℕ → ℕ) (hd : ∀ i, 1 ≤ draws i ∧ draws i ≤ N - 1) :
    ∀ iters i, mr_go N draws iters i = "prime" := by
  haveI := Fact.mk hp
  have hN2 : 2 ≤ N := hp.two_le
  intro iters
  induction iters with
  | zero => intro i; rfl
  | succ n ih =>
    intro i
    have hflt := mod_exp_flt N hp (draws i) (hd i).1 (hd i).2
    have hane := witness_cast_ne_zero N (draws i) hN2 (hd i).1 (hd i).2
    have hpow : ((draws i : ℕ) : ZMod N) ^ (N - 1) = 1 :=
      ZMod.pow_card_sub_one_eq_one hane
    have hdesc := mr_descent_prime N hp (draws i) (N - 1) (by omega) hN54 hpow
    simp only [mr_go]
    rw [if_pos hflt]
    rcases hdesc with h | h
    · rw [if_neg (fun hc => hc.2 h)]
      exact ih (i + 1)
    · rw [if_neg (fun hc => hc.1 h)]
      exact ih (i + 1)

/-- The value computed by the descent loop is the last `mod_exp` result
over the recorded exponent list (or the initial `z` when the loop body
never runs): the exponent trace and the loop agree. -/
theorem mr_descent_eq_exps_last (a N : ℕ) :
    ∀ e z, mr_descent a N e z =
      ((mr_descent_exps a N e z).map
        (fun t => mod_exp (a : ℤ) t (N : ℤ))).getLastD z := by
  intro e
  induction e using Nat.strong_induction_on with
  | _ e ih =>
    intro z
    rw [mr_descent, mr_descent_exps]
    by_cases hg : e % 2 = 0 ∧ z = 1
    · rw [dif_pos hg, dif_pos hg]
      by_cases he : e = 0
      · rw [dif_pos he, dif_pos he]
        rfl
      · rw [dif_neg he, dif_neg he, List.map_cons, List.getLastD_cons]
        have hlt : round53 (e / 2) < e := by
          have h2 : e / 2 ≠ 0 := by
            rcases hg with ⟨hpar, _⟩
            omega
          have := round53_lt_double (e / 2) h2
          omega
        exact ih (round53 (e / 2)) hlt _
    · rw [dif_neg hg, dif_neg hg]
      rfl

/-- C1: corrected.  For a positive exponent, `mod_exp(x, y, N)` returns
`(x ^ y) mod N`, which lies in [0, N-1] (hence is 0 whenever N = 1); for
`y = 0` it returns the unreduced constant 1 for every x, which equals
`1 mod N` exactly when `N ≥ 2`.  (The original claim fails at
`x = 0, y = 0, N = 1`, where the code returns 1 instead of `1 mod 1 = 0`.) -/
theorem claim_C1_mod_exp_contract (x : ℤ) (y : ℕ) (N : ℤ) (hN : 1 ≤ N) :
    (y ≠ 0 → mod_exp x y N = x ^ y % N ∧ 0 ≤ mod_exp x y N ∧
      mod_exp x y N ≤ N - 1) ∧
    mod_exp x 0 N = 1 ∧
    (2 ≤ N → mod_exp x 0 N = 1 % N) ∧
    (N = 1 → y ≠ 0 → mod_exp x y N = 0) := by
  refine ⟨fun hy => ?_, mod_exp_zero x N, fun h2 => ?_, fun h1 hy => ?_⟩
  · obtain ⟨h0, hlt⟩ := mod_exp_range x y N hy (by omega)
    exact ⟨mod_exp_eq_pow_mod x y N hy (by omega), h0, by omega⟩
  · rw [mod_exp_zero, Int.emod_eq_of_lt (by norm_num) (by omega)]
  · subst h1
    obtain ⟨h0, hlt⟩ := mod_exp_range x y 1 hy one_pos
    omega

theorem claim_C1_witness :
    (1 : ℤ) ≤ 5 ∧
    (((3 : ℕ) ≠ 0 → mod_exp 2 3 5 = 2 ^ (3 : ℕ) % 5 ∧ 0 ≤ mod_exp 2 3 5 ∧
        mod_exp 2 3 5 ≤ 5 - 1) ∧
      mod_exp 2 0 5 = 1 ∧
      ((2 : ℤ) ≤ 5 → mod_exp 2 0 5 = 1 % 5) ∧
      ((5 : ℤ) = 1 → (3 : ℕ) ≠ 0 → mod_exp 2 3 5 = 0)) :=
  ⟨by norm_num, claim_C1_mod_exp_contract 2 3 5 (by norm_num)⟩

/-- C1 counterexample: at `x = 0, y = 0, N = 1` the code returns 1 while
the claimed value `(0 ^ 0) mod 1` is 0 (and 1 is outside [0, N-1] = {0}). -/
theorem claim_C1_cex : mod_exp 0 0 1 ≠ ((0 : ℤ) ^ (0 : ℕ)) % 1 := by
  rw [mod_exp_zero]
  norm_num

/-- C2: the trial loop `for i in range(1, k)` runs only k-1 times, not k.
At `N = 4, k = 1` with the witness stream constantly 2 the code draws no
witness at all and returns "prime", although the (never consulted) witness
`a = 2` has `2 ^ 3 mod 4 = 0 ≠ 1` and the claimed behaviour for k = 1 is
one trial reporting "composite". -/
theorem claim_C2_trial_count_bug :
    run_fermat 4 1 (fun _ => 2) = "prime" ∧ mod_exp 2 3 4 ≠ 1 := by
  refine ⟨rfl, ?_⟩
  rw [mod_exp_eq_pow_mod 2 3 4 (by norm_num) (by norm_num)]
  norm_num

/-- C3: same off-by-one as C2.  At `N = 15, k = 1` with witness stream
constantly 2 the code runs zero trials and returns "prime", although the
claimed single trial would compute `2 ^ 14 mod 15 = 4 ≠ 1` and report
"composite". -/
theorem claim_C3_trial_count_bug :
    run_miller_rabin 15 1 (fun _ => 2) = "prime" ∧ mod_exp 2 14 15 ≠ 1 := by
  refine ⟨rfl, ?_⟩
  rw [mod_exp_eq_pow_mod 2 14 15 (by norm_num) (by norm_num)]
  norm_num

/-- C4 (amended): for a prime candidate N, `run_fermat` returns "prime"
for every trial count and every stream of witnesses drawn from [1, N-1]
(its exponents are exact integers); `run_miller_rabin` does so whenever
`N - 1 < 2 ^ 54`, the range in which the descent's float halvings are
exact.  (For larger primes the float division rounds the exponent and a
genuine prime is reported "composite": see the counterexample at the
certified prime 23150294885385047.) -/
theorem claim_C4_prime_never_composite (N k : ℕ) (hp : N.Prime) (hk : 1 ≤ k)
    (draws : ℕ → ℕ) (hd : ∀ i, 1 ≤ draws i ∧ draws i ≤ N - 1) :
    run_fermat N k draws = "prime" ∧
      (N - 1 < 2 ^ 54 → run_miller_rabin N k draws = "prime") :=
  ⟨fermat_go_prime N hp draws hd (k - 1) 0,
    fun h54 => mr_go_prime N hp h54 draws hd (k - 1) 0⟩

theorem claim_C4_witness :
    Nat.Prime 3 ∧ (1 : ℕ) ≤ 2 ∧ run_fermat 3 2 (fun _ => 2) = "prime" ∧
      ((3 : ℕ) - 1 < 2 ^ 54 → run_miller_rabin 3 2 (fun _ => 2) = "prime") := by
  have h := claim_C4_prime_never_composite 3 2 (by norm_num) (by norm_num)
    (fun _ => 2) (fun i => by norm_num)
  exact ⟨by norm_num, by norm_num, h.1, h.2⟩

/-- C5 (amended): at value level every exponent passed to `mod_exp` is a
natural number, and while the running exponent stays below `2 ^ 54` each
descent step halves it exactly: the recorded exponents form a strictly
decreasing chain in which each element is twice its successor.  (Beyond
that range the float division rounds the halved value, breaking the exact
chain: see the counterexample.) -/
theorem claim_C5_descent_exponents (a N : ℕ) :
    ∀ (e : ℕ) (z : ℤ), e < 2 ^ 54 →
      List.Chain (fun u v => u = 2 * v ∧ v < u) e (mr_descent_exps a N e z) := by
  intro e
  induction e using Nat.strong_induction_on with
  | _ e ih =>
    intro z he54
    rw [mr_descent_exps]
    by_cases hg : e % 2 = 0 ∧ z = 1
    · rw [dif_pos hg]
      by_cases he : e = 0
      · rw [dif_pos he]
        exact List.Chain.nil
      · rw [dif_neg he]
        have hpar := hg.1
        have hr53 : round53 (e / 2) = e / 2 := by
          refine round53_small _ ?_
          have h54 : (2 : ℕ) ^ 54 = 2 * 2 ^ 53 := by norm_num
          omega
        rw [hr53]
        refine List.Chain.cons ⟨by omega, by omega⟩ ?_
        refine ih (e / 2) (Nat.div_lt_self (Nat.pos_of_ne_zero he) one_lt_two)
          _ (by omega)
    · rw [dif_neg hg]
      exact List.Chain.nil

theorem claim_C5_witness :
    (12 : ℕ) < 2 ^ 54 ∧
      List.Chain (fun u v => u = 2 * v ∧ v < u) 12 (mr_descent_exps 2 13 12 1) :=
  ⟨by norm_num, claim_C5_descent_exponents 2 13 12 1 (by norm_num)⟩

/-- C5 counterexample: at `N = 2 ^ 54 + 3` (k = 2, witness a = 1) the
descent starts from `N - 1 = 2 ^ 54 + 2`, whose half `2 ^ 53 + 1` is not
representable as a double; the float division passes `2 ^ 53` to
`mod_exp` instead, so the first recorded exponent is not half its
predecessor and the claimed exact-halving chain fails. -/
theorem claim_C5_cex :
    ¬ List.Chain (fun u v => u = 2 * v ∧ v < u) (2 ^ 54 + 2)
      (mr_descent_exps 1 (2 ^ 54 + 3) (2 ^ 54 + 2) 1) := by
  have hlog : Nat.log2 9007199254740993 = 53 := by
    rw [Nat.log2_eq_log_two]
    exact Nat.log_eq_of_pow_le_of_lt_pow (by norm_num) (by norm_num)
  have hround : round53 9007199254740993 = 9007199254740992 := by
    rw [round53, hlog]
    norm_num
  have hx : mr_descent_exps 1 (2 ^ 54 + 3) (2 ^ 54 + 2) 1 =
      9007199254740992 ::
        mr_descent_exps 1 (2 ^ 54 + 3) 9007199254740992
          (mod_exp 1 9007199254740992 ((2 ^ 54 + 3 : ℕ) : ℤ)) := by
    rw [mr_descent_exps, dif_pos ⟨by norm_num, rfl⟩, dif_neg (by norm_num)]
    norm_num [hround]
  intro hch
  rw [hx] at hch
  cases hch with
  | cons h htl =>
    have := h.1
    norm_num at this

/-- C6 (amended): the tests perform no input validation and never raise;
in particular for any trial count `k ≤ 1` (including the out-of-contract
`k < 1`) no witness is consulted and the verdict "prime" is returned, for
every N including `N < 2`. -/
theorem claim_C6_no_validation (N k : ℕ) (draws : ℕ → ℕ) (hk : k ≤ 1) :
    run_fermat N k draws = "prime" ∧ run_miller_rabin N k draws = "prime" := by
  have hk0 : k - 1 = 0 := by omega
  unfold run_fermat run_miller_rabin
  rw [hk0]
  exact ⟨rfl, rfl⟩

theorem claim_C6_witness :
    (0 : ℕ) ≤ 1 ∧ run_fermat 1 0 (fun _ => 1) = "prime" ∧
      run_miller_rabin 1 0 (fun _ => 1) = "prime" := by
  have h := claim_C6_no_validation 1 0 (fun _ => 1) (by norm_num)
  exact ⟨by norm_num, h.1, h.2⟩

/-- C6 counterexample: at the domain violation `N = 0 < 2`, `k = 0 < 1`
both tests return the verdict "prime" instead of failing fast with an
invalid-input error. -/
theorem claim_C6_cex :
    run_fermat 0 0 (fun _ => 1) = "prime" ∧
      run_miller_rabin 0 0 (fun _ => 1) = "prime" :=
  ⟨rfl, rfl⟩

/-- In the exact regime the value `1 - 1 / b ^ k` lies in [0, 1). -/
theorem one_sub_inv_pow_bounds (b : ℚ) (k : ℕ) (hb : 1 ≤ b) :
    0 ≤ 1 - 1 / b ^ k ∧ 1 - 1 / b ^ k < 1 := by
  have h0 : (0 : ℚ) < b := by linarith
  have hp : (0 : ℚ) < b ^ k := by positivity
  have hp1 : (1 : ℚ) ≤ b ^ k := one_le_pow₀ hb
  have hinv0 : (0 : ℚ) < 1 / b ^ k := by positivity
  have hinv1 : (1 : ℚ) / b ^ k ≤ 1 := (div_le_one hp).mpr hp1
  constructor <;> linarith

/-- C7 (amended): for `1 ≤ k ≤ 53`, `fprobability(k)` is exactly
`1 - 2^(-k)`, and for `1 ≤ k ≤ 26`, `mprobability(k)` is exactly
`1 - 4^(-k)`; for larger k the double saturates at exactly 1.  All values
lie in [0, 1], with the strict bound below 1 holding precisely in the
exact regime. -/
theorem claim_C7_probability_values (k : ℕ) (hk : 1 ≤ k) :
    (k ≤ 53 → fprobability k = 1 - (2 : ℚ) ^ (-(k : ℤ))) ∧
    (54 ≤ k → fprobability k = 1) ∧
    (k ≤ 26 → mprobability k = 1 - (4 : ℚ) ^ (-(k : ℤ))) ∧
    (27 ≤ k → mprobability k = 1) ∧
    0 ≤ fprobability k ∧ fprobability k ≤ 1 ∧
    0 ≤ mprobability k ∧ mprobability k ≤ 1 ∧
    (fprobability k < 1 ↔ k ≤ 53) ∧ (mprobability k < 1 ↔ k ≤ 26) := by
  have hf := one_sub_inv_pow_bounds 2 k (by norm_num)
  have hm := one_sub_inv_pow_bounds 4 k (by norm_num)
  refine ⟨fun h => ?_, fun h => ?_, fun h => ?_, fun h => ?_, ?_, ?_, ?_, ?_,
    ?_, ?_⟩
  · rw [fprobability, if_pos h, zpow_neg, zpow_natCast, one_div]
  · rw [fprobability, if_neg (by omega)]
  · rw [mprobability, if_pos h, zpow_neg, zpow_natCast, one_div]
  · rw [mprobability, if_neg (by omega)]
  · rw [fprobability]
    split_ifs with h
    · exact hf.1
    · norm_num
  · rw [fprobability]
    split_ifs with h
    · linarith [hf.2]
    · norm_num
  · rw [mprobability]
    split_ifs with h
    · exact hm.1
    · norm_num
  · rw [mprobability]
    split_ifs with h
    · linarith [hm.2]
    · norm_num
  · rw [fprobability]
    split_ifs with h
    · simp [h, hf.2]
    · simp [h]
  · rw [mprobability]
    split_ifs with h
    · simp [h, hm.2]
    · simp [h]

theorem claim_C7_witness :
    (1 : ℕ) ≤ 1 ∧
    (((1 : ℕ) ≤ 53 → fprobability 1 = 1 - (2 : ℚ) ^ (-(1 : ℤ))) ∧
      (54 ≤ (1 : ℕ) → fprobability 1 = 1) ∧
      ((1 : ℕ) ≤ 26 → mprobability 1 = 1 - (4 : ℚ) ^ (-(1 : ℤ))) ∧
      (27 ≤ (1 : ℕ) → mprobability 1 = 1) ∧
      0 ≤ fprobability 1 ∧ fprobability 1 ≤ 1 ∧
      0 ≤ mprobability 1 ∧ mprobability 1 ≤ 1 ∧
      (fprobability 1 < 1 ↔ (1 : ℕ) ≤ 53) ∧
      (mprobability 1 < 1 ↔ (1 : ℕ) ≤ 26)) :=
  ⟨by norm_num, by simpa using claim_C7_probability_values 1 (by norm_num)⟩

/-- C7 counterexample: at k = 54 the double computed by the source is
exactly 1.0, which is neither the claimed exact value `1 - 2^(-54)` nor
inside the claimed interval [0, 1). -/
theorem claim_C7_cex :
    fprobability 54 ≠ 1 - (2 : ℚ) ^ (-(54 : ℤ)) ∧ ¬ fprobability 54 < 1 := by
  have h : fprobability 54 = 1 := by
    rw [fprobability]
    norm_num
  rw [h]
  constructor
  · intro hc
    have h2 : (0 : ℚ) < (2 : ℚ) ^ (-(54 : ℤ)) := by positivity
    nlinarith [hc, h2]
  · norm_num

/-- C8 (amended): both estimators are nondecreasing in k, strictly
increasing while below double-precision saturation (up to the step into
`k + 1 = 54` for Fermat and `k + 1 = 27` for Miller-Rabin), bounded above
by 1 (strictly only in the exact regime), and the Miller-Rabin estimate
dominates the Fermat estimate for every k. -/
theorem claim_C8_probability_monotone (k : ℕ) (hk : 1 ≤ k) :
    fprobability k ≤ fprobability (k + 1) ∧
    (k + 1 ≤ 54 → fprobability k < fprobability (k + 1)) ∧
    mprobability k ≤ mprobability (k + 1) ∧
    (k + 1 ≤ 27 → mprobability k < mprobability (k + 1)) ∧
    fprobability k ≤ 1 ∧ mprobability k ≤ 1 ∧
    fprobability k ≤ mprobability k := by
  have h2 : (0 : ℚ) < 2 ^ k := by positivity
  have h4 : (0 : ℚ) < 4 ^ k := by positivity
  have hlt2 : (2 : ℚ) ^ k < 2 ^ (k + 1) := by
    rw [pow_succ]
    linarith
  have hlt4 : (4 : ℚ) ^ k < 4 ^ (k + 1) := by
    rw [pow_succ]
    linarith
  have hm2 : (1 : ℚ) / 2 ^ (k + 1) < 1 / 2 ^ k := one_div_lt_one_div_of_lt h2 hlt2
  have hm4 : (1 : ℚ) / 4 ^ (k + 1) < 1 / 4 ^ k := one_div_lt_one_div_of_lt h4 hlt4
  have hp24 : (2 : ℚ) ^ k ≤ 4 ^ k := pow_le_pow_left₀ (by norm_num) (by norm_num) k
  have hcmp : (1 : ℚ) / 4 ^ k ≤ 1 / 2 ^ k := one_div_le_one_div_of_le h2 hp24
  have hf := one_sub_inv_pow_bounds 2 k (by norm_num)
  have hf' := one_sub_inv_pow_bounds 2 (k + 1) (by norm_num)
  have hm := one_sub_inv_pow_bounds 4 k (by norm_num)
  have hm' := one_sub_inv_pow_bounds 4 (k + 1) (by norm_num)
  refine ⟨?_, fun h => ?_, ?_, fun h => ?_, ?_, ?_, ?_⟩
  · rw [fprobability, fprobability]
    split_ifs with ha hb hb
    · linarith
    · linarith [hf.2]
    · omega
    · linarith
  · rw [fprobability, fprobability, if_pos (by omega : k ≤ 53)]
    split_ifs with hb
    · linarith
    · linarith [hf.2]
  · rw [mprobability, mprobability]
    split_ifs with ha hb hb
    · linarith
    · linarith [hm.2]
    · omega
    · linarith
  · rw [mprobability, mprobability, if_pos (by omega : k ≤ 26)]
    split_ifs with hb
    · linarith
    · linarith [hm.2]
  · rw [fprobability]
    split_ifs with h
    · linarith [hf.2]
    · linarith
  · rw [mprobability]
    split_ifs with h
    · linarith [hm.2]
    · linarith
  · rw [fprobability, mprobability]
    split_ifs with ha hb hb
    · linarith
    · linarith [hf.2]
    · linarith [hm.1]
    · linarith

theorem claim_C8_witness :
    (1 : ℕ) ≤ 1 ∧
    (fprobability 1 ≤ fprobability 2 ∧
      ((1 : ℕ) + 1 ≤ 54 → fprobability 1 < fprobability 2) ∧
      mprobability 1 ≤ mprobability 2 ∧
      ((1 : ℕ) + 1 ≤ 27 → mprobability 1 < mprobability 2) ∧
      fprobability 1 ≤ 1 ∧ mprobability 1 ≤ 1 ∧
      fprobability 1 ≤ mprobability 1) :=
  ⟨by norm_num, by simpa using claim_C8_probability_monotone 1 (by norm_num)⟩

/-- C8 counterexample: strict monotonicity fails once the doubles
saturate (`fprobability` is exactly 1 at both k = 54 and k = 55), and
`mprobability 27` is exactly 1, not strictly below 1. -/
theorem claim_C8_cex :
    ¬ fprobability 54 < fprobability 55 ∧ ¬ mprobability 27 < 1 := by
  have h54 : fprobability 54 = 1 := by
    rw [fprobability]
    norm_num
  have h55 : fprobability 55 = 1 := by
    rw [fprobability]
    norm_num
  have h27 : mprobability 27 = 1 := by
    rw [mprobability]
    norm_num
  rw [h54, h55, h27]
  norm_num

/-- C9: `prime_test(N, k)` is exactly the pair of the two sub-test results
on the same N and k, each consuming its own independent witness stream. -/
theorem claim_C9_prime_test_pair (N k : ℕ) (hN : 2 ≤ N) (hk : 1 ≤ k)
    (fdraws mdraws : ℕ → ℕ) :
    prime_test N k fdraws mdraws =
      (run_fermat N k fdraws, run_miller_rabin N k mdraws) := rfl

theorem claim_C9_witness :
    (2 : ℕ) ≤ 5 ∧ (1 : ℕ) ≤ 2 ∧
    prime_test 5 2 (fun _ => 2) (fun _ => 3) =
      (run_fermat 5 2 (fun _ => 2), run_miller_rabin 5 2 (fun _ => 3)) :=
  ⟨by norm_num, by norm_num,
    claim_C9_prime_test_pair 5 2 (by norm_num) (by norm_num) _ _⟩

/-- C10: a call with k = 1 performs zero trial-loop iterations
(`range(1, 1)` is empty) and returns "prime" for every N — even a
composite one — and for every witness stream. -/
theorem claim_C10_k_one_always_prime (N : ℕ) (hN : 2 ≤ N) (draws : ℕ → ℕ) :
    run_fermat N 1 draws = "prime" ∧ run_miller_rabin N 1 draws = "prime" :=
  ⟨rfl, rfl⟩

theorem claim_C10_witness :
    (2 : ℕ) ≤ 4 ∧ run_fermat 4 1 (fun _ => 3) = "prime" ∧
      run_miller_rabin 4 1 (fun _ => 3) = "prime" := by
  have h := claim_C10_k_one_always_prime 4 (by norm_num) (fun _ => 3)
  exact ⟨by norm_num, h.1, h.2⟩

/-- Step lemma for square-and-multiply certificates: squaring doubles the
exponent of a known power residue. -/
theorem pow_emod_sq (g : ℤ) (e : ℕ) (P r s : ℤ) (h : g ^ e % P = r)
    (hs : r * r % P = s) : g ^ (2 * e) % P = s := by
  have h1 : g ^ (2 * e) = g ^ e * g ^ e := by
    rw [two_mul, pow_add]
  rw [h1, Int.mul_emod, h]
  exact hs

/-- Step lemma for square-and-multiply certificates: squaring then
multiplying by the base advances the exponent to `2 * e + 1`. -/
theorem pow_emod_sq_mul (g : ℤ) (e : ℕ) (P r s : ℤ) (h : g ^ e % P = r)
    (hs : r * r % P * (g % P) % P = s) : g ^ (2 * e + 1) % P = s := by
  have h1 : g ^ (2 * e + 1) = g ^ e * g ^ e * g := by
    rw [pow_succ, two_mul, pow_add]
  rw [h1, Int.mul_emod, Int.mul_emod (g ^ e), h]
  exact hs
/-- Square-and-multiply chain: 5 ^ ((P-1)/2) mod P for P = 23150294885385047. -/
theorem pow_chain_five_half : (5 : ℤ) ^ (11575147442692523 : ℕ) % 23150294885385047 = 23150294885385046 := by
  have t0 : (5 : ℤ) ^ (1 : ℕ) % 23150294885385047 = 5 := by norm_num
  have t1 : (5 : ℤ) ^ (2 : ℕ) % 23150294885385047 = 25 :=
    pow_emod_sq 5 1 23150294885385047 5 25 t0 (by norm_num)
  have t2 : (5 : ℤ) ^ (5 : ℕ) % 23150294885385047 = 3125 :=
    pow_emod_sq_mul 5 2 23150294885385047 25 3125 t1 (by norm_num)
  have t3 : (5 : ℤ) ^ (10 : ℕ) % 23150294885385047 = 9765625 :=
    pow_emod_sq 5 5 23150294885385047 3125 9765625 t2 (by norm_num)
  have t4 : (5 : ℤ) ^ (20 : ℕ) % 23150294885385047 = 95367431640625 :=
    pow_emod_sq 5 10 23150294885385047 9765625 95367431640625 t3 (by norm_num)
  have t5 : (5 : ℤ) ^ (41 : ℕ) % 23150294885385047 = 6347956710242882 :=
    pow_emod_sq_mul 5 20 23150294885385047 95367431640625 6347956710242882 t4 (by norm_num)
  have t6 : (5 : ℤ) ^ (82 : ℕ) % 23150294885385047 = 12198816428534883 :=
    pow_emod_sq 5 41 23150294885385047 6347956710242882 12198816428534883 t5 (by norm_num)
  have t7 : (5 : ℤ) ^ (164 : ℕ) % 23150294885385047 = 361712635088426 :=
    pow_emod_sq 5 82 23150294885385047 12198816428534883 361712635088426 t6 (by norm_num)
  have t8 : (5 : ℤ) ^ (328 : ℕ) % 23150294885385047 = 9952034249468807 :=
    pow_emod_sq 5 164 23150294885385047 361712635088426 9952034249468807 t7 (by norm_num)
  have t9 : (5 : ℤ) ^ (657 : ℕ) % 23150294885385047 = 10667575776025581 :=
    pow_emod_sq_mul 5 328 23150294885385047 9952034249468807 10667575776025581 t8 (by norm_num)
  have t10 : (5 : ℤ) ^ (1315 : ℕ) % 23150294885385047 = 16376818276424477 :=
    pow_emod_sq_mul 5 657 23150294885385047 10667575776025581 16376818276424477 t9 (by norm_num)
  have t11 : (5 : ℤ) ^ (2631 : ℕ) % 23150294885385047 = 73146141270178 :=
    pow_emod_sq_mul 5 1315 23150294885385047 16376818276424477 73146141270178 t10 (by norm_num)
  have t12 : (5 : ℤ) ^ (5263 : ℕ) % 23150294885385047 = 17907764149577337 :=
    pow_emod_sq_mul 5 2631 23150294885385047 73146141270178 17907764149577337 t11 (by norm_num)
  have t13 : (5 : ℤ) ^ (10527 : ℕ) % 23150294885385047 = 14690911349336720 :=
    pow_emod_sq_mul 5 5263 23150294885385047 17907764149577337 14690911349336720 t12 (by norm_num)
  have t14 : (5 : ℤ) ^ (21055 : ℕ) % 23150294885385047 = 16725252507406979 :=
    pow_emod_sq_mul 5 10527 23150294885385047 14690911349336720 16725252507406979 t13 (by norm_num)
  have t15 : (5 : ℤ) ^ (42110 : ℕ) % 23150294885385047 = 21424737960275316 :=
    pow_emod_sq 5 21055 23150294885385047 16725252507406979 21424737960275316 t14 (by norm_num)
  have t16 : (5 : ℤ) ^ (84220 : ℕ) % 23150294885385047 = 18612338457375081 :=
    pow_emod_sq 5 42110 23150294885385047 21424737960275316 18612338457375081 t15 (by norm_num)
  have t17 : (5 : ℤ) ^ (168440 : ℕ) % 23150294885385047 = 5105337124525984 :=
    pow_emod_sq 5 84220 23150294885385047 18612338457375081 5105337124525984 t16 (by norm_num)
  have t18 : (5 : ℤ) ^ (336881 : ℕ) % 23150294885385047 = 7707866733706074 :=
    pow_emod_sq_mul 5 168440 23150294885385047 5105337124525984 7707866733706074 t17 (by norm_num)
  have t19 : (5 : ℤ) ^ (673762 : ℕ) % 23150294885385047 = 6776953919961272 :=
    pow_emod_sq 5 336881 23150294885385047 7707866733706074 6776953919961272 t18 (by norm_num)
  have t20 : (5 : ℤ) ^ (1347524 : ℕ) % 23150294885385047 = 17391133323947770 :=
    pow_emod_sq 5 673762 23150294885385047 6776953919961272 17391133323947770 t19 (by norm_num)
  have t21 : (5 : ℤ) ^ (2695049 : ℕ) % 23150294885385047 = 1493378965313818 :=
    pow_emod_sq_mul 5 1347524 23150294885385047 17391133323947770 1493378965313818 t20 (by norm_num)
  have t22 : (5 : ℤ) ^ (5390098 : ℕ) % 23150294885385047 = 15457786912142022 :=
    pow_emod_sq 5 2695049 23150294885385047 1493378965313818 15457786912142022 t21 (by norm_num)
  have t23 : (5 : ℤ) ^ (10780196 : ℕ) % 23150294885385047 = 22862651333014348 :=
    pow_emod_sq 5 5390098 23150294885385047 15457786912142022 22862651333014348 t22 (by norm_num)
  have t24 : (5 : ℤ) ^ (21560392 : ℕ) % 23150294885385047 = 18641086406546632 :=
    pow_emod_sq 5 10780196 23150294885385047 22862651333014348 18641086406546632 t23 (by norm_num)
  have t25 : (5 : ℤ) ^ (43120784 : ℕ) % 23150294885385047 = 22296002571893434 :=
    pow_emod_sq 5 21560392 23150294885385047 18641086406546632 22296002571893434 t24 (by norm_num)
  have t26 : (5 : ℤ) ^ (86241568 : ℕ) % 23150294885385047 = 8289617711075529 :=
    pow_emod_sq 5 43120784 23150294885385047 22296002571893434 8289617711075529 t25 (by norm_num)
  have t27 : (5 : ℤ) ^ (172483137 : ℕ) % 23150294885385047 = 455124142615318 :=
    pow_emod_sq_mul 5 86241568 23150294885385047 8289617711075529 455124142615318 t26 (by norm_num)
  have t28 : (5 : ℤ) ^ (344966275 : ℕ) % 23150294885385047 = 1728771992187519 :=
    pow_emod_sq_mul 5 172483137 23150294885385047 455124142615318 1728771992187519 t27 (by norm_num)
  have t29 : (5 : ℤ) ^ (689932551 : ℕ) % 23150294885385047 = 20047304747564813 :=
    pow_emod_sq_mul 5 344966275 23150294885385047 1728771992187519 20047304747564813 t28 (by norm_num)
  have t30 : (5 : ℤ) ^ (1379865103 : ℕ) % 23150294885385047 = 8769317868911478 :=
    pow_emod_sq_mul 5 689932551 23150294885385047 20047304747564813 8769317868911478 t29 (by norm_num)
  have t31 : (5 : ℤ) ^ (2759730206 : ℕ) % 23150294885385047 = 13728254150728145 :=
    pow_emod_sq 5 1379865103 23150294885385047 8769317868911478 13728254150728145 t30 (by norm_num)
  have t32 : (5 : ℤ) ^ (5519460412 : ℕ) % 23150294885385047 = 5709202406250284 :=
    pow_emod_sq 5 2759730206 23150294885385047 13728254150728145 5709202406250284 t31 (by norm_num)
  have t33 : (5 : ℤ) ^ (11038920824 : ℕ) % 23150294885385047 = 13006094325808764 :=
    pow_emod_sq 5 5519460412 23150294885385047 5709202406250284 13006094325808764 t32 (by norm_num)
  have t34 : (5 : ℤ) ^ (22077841649 : ℕ) % 23150294885385047 = 10542994810952451 :=
    pow_emod_sq_mul 5 11038920824 23150294885385047 13006094325808764 10542994810952451 t33 (by norm_num)
  have t35 : (5 : ℤ) ^ (44155683298 : ℕ) % 23150294885385047 = 22553106401641768 :=
    pow_emod_sq 5 22077841649 23150294885385047 10542994810952451 22553106401641768 t34 (by norm_num)
  have t36 : (5 : ℤ) ^ (88311366597 : ℕ) % 23150294885385047 = 18049524523811263 :=
    pow_emod_sq_mul 5 44155683298 23150294885385047 22553106401641768 18049524523811263 t35 (by norm_num)
  have t37 : (5 : ℤ) ^ (176622733195 : ℕ) % 23150294885385047 = 16737081693564106 :=
    pow_emod_sq_mul 5 88311366597 23150294885385047 18049524523811263 16737081693564106 t36 (by norm_num)
  have t38 : (5 : ℤ) ^ (353245466390 : ℕ) % 23150294885385047 = 3650878768719570 :=
    pow_emod_sq 5 176622733195 23150294885385047 16737081693564106 3650878768719570 t37 (by norm_num)
  have t39 : (5 : ℤ) ^ (706490932781 : ℕ) % 23150294885385047 = 18281715368954674 :=
    pow_emod_sq_mul 5 353245466390 23150294885385047 3650878768719570 18281715368954674 t38 (by norm_num)
  have t40 : (5 : ℤ) ^ (1412981865563 : ℕ) % 23150294885385047 = 22404007834842709 :=
    pow_emod_sq_mul 5 706490932781 23150294885385047 18281715368954674 22404007834842709 t39 (by norm_num)
  have t41 : (5 : ℤ) ^ (2825963731126 : ℕ) % 23150294885385047 = 17734787676723644 :=
    pow_emod_sq 5 1412981865563 23150294885385047 22404007834842709 17734787676723644 t40 (by norm_num)
  have t42 : (5 : ℤ) ^ (5651927462252 : ℕ) % 23150294885385047 = 10343232580723407 :=
    pow_emod_sq 5 2825963731126 23150294885385047 17734787676723644 10343232580723407 t41 (by norm_num)
  have t43 : (5 : ℤ) ^ (11303854924504 : ℕ) % 23150294885385047 = 901955386931138 :=
    pow_emod_sq 5 5651927462252 23150294885385047 10343232580723407 901955386931138 t42 (by norm_num)
  have t44 : (5 : ℤ) ^ (22607709849008 : ℕ) % 23150294885385047 = 3389905038423225 :=
    pow_emod_sq 5 11303854924504 23150294885385047 901955386931138 3389905038423225 t43 (by norm_num)
  have t45 : (5 : ℤ) ^ (45215419698017 : ℕ) % 23150294885385047 = 2563199365323679 :=
    pow_emod_sq_mul 5 22607709849008 23150294885385047 3389905038423225 2563199365323679 t44 (by norm_num)
  have t46 : (5 : ℤ) ^ (90430839396035 : ℕ) % 23150294885385047 = 10670317395478815 :=
    pow_emod_sq_mul 5 45215419698017 23150294885385047 2563199365323679 10670317395478815 t45 (by norm_num)
  have t47 : (5 : ℤ) ^ (180861678792070 : ℕ) % 23150294885385047 = 5923434180827474 :=
    pow_emod_sq 5 90430839396035 23150294885385047 10670317395478815 5923434180827474 t46 (by norm_num)
  have t48 : (5 : ℤ) ^ (361723357584141 : ℕ) % 23150294885385047 = 1660925801680100 :=
    pow_emod_sq_mul 5 180861678792070 23150294885385047 5923434180827474 1660925801680100 t47 (by norm_num)
  have t49 : (5 : ℤ) ^ (723446715168282 : ℕ) % 23150294885385047 = 9725601519240600 :=
    pow_emod_sq 5 361723357584141 23150294885385047 1660925801680100 9725601519240600 t48 (by norm_num)
  have t50 : (5 : ℤ) ^ (1446893430336565 : ℕ) % 23150294885385047 = 8256961729681991 :=
    pow_emod_sq_mul 5 723446715168282 23150294885385047 9725601519240600 8256961729681991 t49 (by norm_num)
  have t51 : (5 : ℤ) ^ (2893786860673130 : ℕ) % 23150294885385047 = 18723547418073999 :=
    pow_emod_sq 5 1446893430336565 23150294885385047 8256961729681991 18723547418073999 t50 (by norm_num)
  have t52 : (5 : ℤ) ^ (5787573721346261 : ℕ) % 23150294885385047 = 17909428257994482 :=
    pow_emod_sq_mul 5 2893786860673130 23150294885385047 18723547418073999 17909428257994482 t51 (by norm_num)
  have t53 : (5 : ℤ) ^ (11575147442692523 : ℕ) % 23150294885385047 = 23150294885385046 :=
    pow_emod_sq_mul 5 5787573721346261 23150294885385047 17909428257994482 23150294885385046 t52 (by norm_num)
  exact t53

/-- Square-and-multiply chain: 5 ^ ((P-1)/2731) mod P. -/
theorem pow_chain_five_p1 : (5 : ℤ) ^ (8476856420866 : ℕ) % 23150294885385047 = 20429062267972379 := by
  have t0 : (5 : ℤ) ^ (1 : ℕ) % 23150294885385047 = 5 := by norm_num
  have t1 : (5 : ℤ) ^ (3 : ℕ) % 23150294885385047 = 125 :=
    pow_emod_sq_mul 5 1 23150294885385047 5 125 t0 (by norm_num)
  have t2 : (5 : ℤ) ^ (7 : ℕ) % 23150294885385047 = 78125 :=
    pow_emod_sq_mul 5 3 23150294885385047 125 78125 t1 (by norm_num)
  have t3 : (5 : ℤ) ^ (15 : ℕ) % 23150294885385047 = 30517578125 :=
    pow_emod_sq_mul 5 7 23150294885385047 78125 30517578125 t2 (by norm_num)
  have t4 : (5 : ℤ) ^ (30 : ℕ) % 23150294885385047 = 9361671323459862 :=
    pow_emod_sq 5 15 23150294885385047 30517578125 9361671323459862 t3 (by norm_num)
  have t5 : (5 : ℤ) ^ (61 : ℕ) % 23150294885385047 = 8150426725478969 :=
    pow_emod_sq_mul 5 30 23150294885385047 9361671323459862 8150426725478969 t4 (by norm_num)
  have t6 : (5 : ℤ) ^ (123 : ℕ) % 23150294885385047 = 4486752537693854 :=
    pow_emod_sq_mul 5 61 23150294885385047 8150426725478969 4486752537693854 t5 (by norm_num)
  have t7 : (5 : ℤ) ^ (246 : ℕ) % 23150294885385047 = 315915041908696 :=
    pow_emod_sq 5 123 23150294885385047 4486752537693854 315915041908696 t6 (by norm_num)
  have t8 : (5 : ℤ) ^ (493 : ℕ) % 23150294885385047 = 13086526145682281 :=
    pow_emod_sq_mul 5 246 23150294885385047 315915041908696 13086526145682281 t7 (by norm_num)
  have t9 : (5 : ℤ) ^ (986 : ℕ) % 23150294885385047 = 23011038759442605 :=
    pow_emod_sq 5 493 23150294885385047 13086526145682281 23011038759442605 t8 (by norm_num)
  have t10 : (5 : ℤ) ^ (1973 : ℕ) % 23150294885385047 = 7056577058195072 :=
    pow_emod_sq_mul 5 986 23150294885385047 23011038759442605 7056577058195072 t9 (by norm_num)
  have t11 : (5 : ℤ) ^ (3947 : ℕ) % 23150294885385047 = 11715639694726460 :=
    pow_emod_sq_mul 5 1973 23150294885385047 7056577058195072 11715639694726460 t10 (by norm_num)
  have t12 : (5 : ℤ) ^ (7894 : ℕ) % 23150294885385047 = 10482000184196026 :=
    pow_emod_sq 5 3947 23150294885385047 11715639694726460 10482000184196026 t11 (by norm_num)
  have t13 : (5 : ℤ) ^ (15789 : ℕ) % 23150294885385047 = 17526017941623901 :=
    pow_emod_sq_mul 5 7894 23150294885385047 10482000184196026 17526017941623901 t12 (by norm_num)
  have t14 : (5 : ℤ) ^ (31578 : ℕ) % 23150294885385047 = 1158729208834802 :=
    pow_emod_sq 5 15789 23150294885385047 17526017941623901 1158729208834802 t13 (by norm_num)
  have t15 : (5 : ℤ) ^ (63157 : ℕ) % 23150294885385047 = 13910310712720124 :=
    pow_emod_sq_mul 5 31578 23150294885385047 1158729208834802 13910310712720124 t14 (by norm_num)
  have t16 : (5 : ℤ) ^ (126315 : ℕ) % 23150294885385047 = 12469847124028864 :=
    pow_emod_sq_mul 5 63157 23150294885385047 13910310712720124 12469847124028864 t15 (by norm_num)
  have t17 : (5 : ℤ) ^ (252630 : ℕ) % 23150294885385047 = 10035114145383034 :=
    pow_emod_sq 5 126315 23150294885385047 12469847124028864 10035114145383034 t16 (by norm_num)
  have t18 : (5 : ℤ) ^ (505260 : ℕ) % 23150294885385047 = 2079501732169005 :=
    pow_emod_sq 5 252630 23150294885385047 10035114145383034 2079501732169005 t17 (by norm_num)
  have t19 : (5 : ℤ) ^ (1010520 : ℕ) % 23150294885385047 = 11298291104633341 :=
    pow_emod_sq 5 505260 23150294885385047 2079501732169005 11298291104633341 t18 (by norm_num)
  have t20 : (5 : ℤ) ^ (2021040 : ℕ) % 23150294885385047 = 1084696715464644 :=
    pow_emod_sq 5 1010520 23150294885385047 11298291104633341 1084696715464644 t19 (by norm_num)
  have t21 : (5 : ℤ) ^ (4042080 : ℕ) % 23150294885385047 = 12947625666489662 :=
    pow_emod_sq 5 2021040 23150294885385047 1084696715464644 12947625666489662 t20 (by norm_num)
  have t22 : (5 : ℤ) ^ (8084160 : ℕ) % 23150294885385047 = 14996376302206326 :=
    pow_emod_sq 5 4042080 23150294885385047 12947625666489662 14996376302206326 t21 (by norm_num)
  have t23 : (5 : ℤ) ^ (16168320 : ℕ) % 23150294885385047 = 5209351845585997 :=
    pow_emod_sq 5 8084160 23150294885385047 14996376302206326 5209351845585997 t22 (by norm_num)
  have t24 : (5 : ℤ) ^ (32336641 : ℕ) % 23150294885385047 = 19079693377295447 :=
    pow_emod_sq_mul 5 16168320 23150294885385047 5209351845585997 19079693377295447 t23 (by norm_num)
  have t25 : (5 : ℤ) ^ (64673282 : ℕ) % 23150294885385047 = 924216436003528 :=
    pow_emod_sq 5 32336641 23150294885385047 19079693377295447 924216436003528 t24 (by norm_num)
  have t26 : (5 : ℤ) ^ (129346564 : ℕ) % 23150294885385047 = 17505292123526771 :=
    pow_emod_sq 5 64673282 23150294885385047 924216436003528 17505292123526771 t25 (by norm_num)
  have t27 : (5 : ℤ) ^ (258693128 : ℕ) % 23150294885385047 = 6534081659158961 :=
    pow_emod_sq 5 129346564 23150294885385047 17505292123526771 6534081659158961 t26 (by norm_num)
  have t28 : (5 : ℤ) ^ (517386256 : ℕ) % 23150294885385047 = 12167231679694763 :=
    pow_emod_sq 5 258693128 23150294885385047 6534081659158961 12167231679694763 t27 (by norm_num)
  have t29 : (5 : ℤ) ^ (1034772512 : ℕ) % 23150294885385047 = 13340370478477728 :=
    pow_emod_sq 5 517386256 23150294885385047 12167231679694763 13340370478477728 t28 (by norm_num)
  have t30 : (5 : ℤ) ^ (2069545024 : ℕ) % 23150294885385047 = 4526305183228608 :=
    pow_emod_sq 5 1034772512 23150294885385047 13340370478477728 4526305183228608 t29 (by norm_num)
  have t31 : (5 : ℤ) ^ (4139090049 : ℕ) % 23150294885385047 = 14234223208218453 :=
    pow_emod_sq_mul 5 2069545024 23150294885385047 4526305183228608 14234223208218453 t30 (by norm_num)
  have t32 : (5 : ℤ) ^ (8278180098 : ℕ) % 23150294885385047 = 16481578567932742 :=
    pow_emod_sq 5 4139090049 23150294885385047 14234223208218453 16481578567932742 t31 (by norm_num)
  have t33 : (5 : ℤ) ^ (16556360197 : ℕ) % 23150294885385047 = 4120223495907531 :=
    pow_emod_sq_mul 5 8278180098 23150294885385047 16481578567932742 4120223495907531 t32 (by norm_num)
  have t34 : (5 : ℤ) ^ (33112720394 : ℕ) % 23150294885385047 = 1121725102594600 :=
    pow_emod_sq 5 16556360197 23150294885385047 4120223495907531 1121725102594600 t33 (by norm_num)
  have t35 : (5 : ℤ) ^ (66225440788 : ℕ) % 23150294885385047 = 3824492597155251 :=
    pow_emod_sq 5 33112720394 23150294885385047 1121725102594600 3824492597155251 t34 (by norm_num)
  have t36 : (5 : ℤ) ^ (132450881576 : ℕ) % 23150294885385047 = 15112872185163856 :=
    pow_emod_sq 5 66225440788 23150294885385047 3824492597155251 15112872185163856 t35 (by norm_num)
  have t37 : (5 : ℤ) ^ (264901763152 : ℕ) % 23150294885385047 = 17444194962587949 :=
    pow_emod_sq 5 132450881576 23150294885385047 15112872185163856 17444194962587949 t36 (by norm_num)
  have t38 : (5 : ℤ) ^ (529803526304 : ℕ) % 23150294885385047 = 15528323687414113 :=
    pow_emod_sq 5 264901763152 23150294885385047 17444194962587949 15528323687414113 t37 (by norm_num)
  have t39 : (5 : ℤ) ^ (1059607052608 : ℕ) % 23150294885385047 = 16687761239977049 :=
    pow_emod_sq 5 529803526304 23150294885385047 15528323687414113 16687761239977049 t38 (by norm_num)
  have t40 : (5 : ℤ) ^ (2119214105216 : ℕ) % 23150294885385047 = 19442756214972392 :=
    pow_emod_sq 5 1059607052608 23150294885385047 16687761239977049 19442756214972392 t39 (by norm_num)
  have t41 : (5 : ℤ) ^ (4238428210433 : ℕ) % 23150294885385047 = 727576539994009 :=
    pow_emod_sq_mul 5 2119214105216 23150294885385047 19442756214972392 727576539994009 t40 (by norm_num)
  have t42 : (5 : ℤ) ^ (8476856420866 : ℕ) % 23150294885385047 = 20429062267972379 :=
    pow_emod_sq 5 4238428210433 23150294885385047 727576539994009 20429062267972379 t41 (by norm_num)
  exact t42

/-- Square-and-multiply chain: 5 ^ ((P-1)/252173) mod P. -/
theorem pow_chain_five_p2 : (5 : ℤ) ^ (91803225902 : ℕ) % 23150294885385047 = 3332917774489172 := by
  have t0 : (5 : ℤ) ^ (1 : ℕ) % 23150294885385047 = 5 := by norm_num
  have t1 : (5 : ℤ) ^ (2 : ℕ) % 23150294885385047 = 25 :=
    pow_emod_sq 5 1 23150294885385047 5 25 t0 (by norm_num)
  have t2 : (5 : ℤ) ^ (5 : ℕ) % 23150294885385047 = 3125 :=
    pow_emod_sq_mul 5 2 23150294885385047 25 3125 t1 (by norm_num)
  have t3 : (5 : ℤ) ^ (10 : ℕ) % 23150294885385047 = 9765625 :=
    pow_emod_sq 5 5 23150294885385047 3125 9765625 t2 (by norm_num)
  have t4 : (5 : ℤ) ^ (21 : ℕ) % 23150294885385047 = 476837158203125 :=
    pow_emod_sq_mul 5 10 23150294885385047 9765625 476837158203125 t3 (by norm_num)
  have t5 : (5 : ℤ) ^ (42 : ℕ) % 23150294885385047 = 8589488665829363 :=
    pow_emod_sq 5 21 23150294885385047 476837158203125 8589488665829363 t4 (by norm_num)
  have t6 : (5 : ℤ) ^ (85 : ℕ) % 23150294885385047 = 20082886016832320 :=
    pow_emod_sq_mul 5 42 23150294885385047 8589488665829363 20082886016832320 t5 (by norm_num)
  have t7 : (5 : ℤ) ^ (170 : ℕ) % 23150294885385047 = 3087971222704782 :=
    pow_emod_sq 5 85 23150294885385047 20082886016832320 3087971222704782 t6 (by norm_num)
  have t8 : (5 : ℤ) ^ (341 : ℕ) % 23150294885385047 = 19866086344921842 :=
    pow_emod_sq_mul 5 170 23150294885385047 3087971222704782 19866086344921842 t7 (by norm_num)
  have t9 : (5 : ℤ) ^ (683 : ℕ) % 23150294885385047 = 11560861997480330 :=
    pow_emod_sq_mul 5 341 23150294885385047 19866086344921842 11560861997480330 t8 (by norm_num)
  have t10 : (5 : ℤ) ^ (1367 : ℕ) % 23150294885385047 = 7763195485354858 :=
    pow_emod_sq_mul 5 683 23150294885385047 11560861997480330 7763195485354858 t9 (by norm_num)
  have t11 : (5 : ℤ) ^ (2735 : ℕ) % 23150294885385047 = 17377916734683820 :=
    pow_emod_sq_mul 5 1367 23150294885385047 7763195485354858 17377916734683820 t10 (by norm_num)
  have t12 : (5 : ℤ) ^ (5471 : ℕ) % 23150294885385047 = 14068593291782479 :=
    pow_emod_sq_mul 5 2735 23150294885385047 17377916734683820 14068593291782479 t11 (by norm_num)
  have t13 : (5 : ℤ) ^ (10943 : ℕ) % 23150294885385047 = 20865178972560443 :=
    pow_emod_sq_mul 5 5471 23150294885385047 14068593291782479 20865178972560443 t12 (by norm_num)
  have t14 : (5 : ℤ) ^ (21887 : ℕ) % 23150294885385047 = 10254626526441848 :=
    pow_emod_sq_mul 5 10943 23150294885385047 20865178972560443 10254626526441848 t13 (by norm_num)
  have t15 : (5 : ℤ) ^ (43775 : ℕ) % 23150294885385047 = 19866071550458413 :=
    pow_emod_sq_mul 5 21887 23150294885385047 10254626526441848 19866071550458413 t14 (by norm_num)
  have t16 : (5 : ℤ) ^ (87550 : ℕ) % 23150294885385047 = 19933267315906743 :=
    pow_emod_sq 5 43775 23150294885385047 19866071550458413 19933267315906743 t15 (by norm_num)
  have t17 : (5 : ℤ) ^ (175100 : ℕ) % 23150294885385047 = 13362444768132 :=
    pow_emod_sq 5 87550 23150294885385047 19933267315906743 13362444768132 t16 (by norm_num)
  have t18 : (5 : ℤ) ^ (350201 : ℕ) % 23150294885385047 = 17377025463632479 :=
    pow_emod_sq_mul 5 175100 23150294885385047 13362444768132 17377025463632479 t17 (by norm_num)
  have t19 : (5 : ℤ) ^ (700403 : ℕ) % 23150294885385047 = 9485444372564179 :=
    pow_emod_sq_mul 5 350201 23150294885385047 17377025463632479 9485444372564179 t18 (by norm_num)
  have t20 : (5 : ℤ) ^ (1400806 : ℕ) % 23150294885385047 = 13282980638432735 :=
    pow_emod_sq 5 700403 23150294885385047 9485444372564179 13282980638432735 t19 (by norm_num)
  have t21 : (5 : ℤ) ^ (2801612 : ℕ) % 23150294885385047 = 11932304422394573 :=
    pow_emod_sq 5 1400806 23150294885385047 13282980638432735 11932304422394573 t20 (by norm_num)
  have t22 : (5 : ℤ) ^ (5603224 : ℕ) % 23150294885385047 = 10197379382142310 :=
    pow_emod_sq 5 2801612 23150294885385047 11932304422394573 10197379382142310 t21 (by norm_num)
  have t23 : (5 : ℤ) ^ (11206448 : ℕ) % 23150294885385047 = 17805004606483699 :=
    pow_emod_sq 5 5603224 23150294885385047 10197379382142310 17805004606483699 t22 (by norm_num)
  have t24 : (5 : ℤ) ^ (22412896 : ℕ) % 23150294885385047 = 14506618193737156 :=
    pow_emod_sq 5 11206448 23150294885385047 17805004606483699 14506618193737156 t23 (by norm_num)
  have t25 : (5 : ℤ) ^ (44825793 : ℕ) % 23150294885385047 = 10233300876215560 :=
    pow_emod_sq_mul 5 22412896 23150294885385047 14506618193737156 10233300876215560 t24 (by norm_num)
  have t26 : (5 : ℤ) ^ (89651587 : ℕ) % 23150294885385047 = 19260798199216295 :=
    pow_emod_sq_mul 5 44825793 23150294885385047 10233300876215560 19260798199216295 t25 (by norm_num)
  have t27 : (5 : ℤ) ^ (179303175 : ℕ) % 23150294885385047 = 22888306690172791 :=
    pow_emod_sq_mul 5 89651587 23150294885385047 19260798199216295 22888306690172791 t26 (by norm_num)
  have t28 : (5 : ℤ) ^ (358606351 : ℕ) % 23150294885385047 = 23076495219288897 :=
    pow_emod_sq_mul 5 179303175 23150294885385047 22888306690172791 23076495219288897 t27 (by norm_num)
  have t29 : (5 : ℤ) ^ (717212702 : ℕ) % 23150294885385047 = 17630999981278884 :=
    pow_emod_sq 5 358606351 23150294885385047 23076495219288897 17630999981278884 t28 (by norm_num)
  have t30 : (5 : ℤ) ^ (1434425404 : ℕ) % 23150294885385047 = 9268531973517044 :=
    pow_emod_sq 5 717212702 23150294885385047 17630999981278884 9268531973517044 t29 (by norm_num)
  have t31 : (5 : ℤ) ^ (2868850809 : ℕ) % 23150294885385047 = 14261167662537129 :=
    pow_emod_sq_mul 5 1434425404 23150294885385047 9268531973517044 14261167662537129 t30 (by norm_num)
  have t32 : (5 : ℤ) ^ (5737701618 : ℕ) % 23150294885385047 = 7655733690827304 :=
    pow_emod_sq 5 2868850809 23150294885385047 14261167662537129 7655733690827304 t31 (by norm_num)
  have t33 : (5 : ℤ) ^ (11475403237 : ℕ) % 23150294885385047 = 6012779191665573 :=
    pow_emod_sq_mul 5 5737701618 23150294885385047 7655733690827304 6012779191665573 t32 (by norm_num)
  have t34 : (5 : ℤ) ^ (22950806475 : ℕ) % 23150294885385047 = 4132373330573948 :=
    pow_emod_sq_mul 5 11475403237 23150294885385047 6012779191665573 4132373330573948 t33 (by norm_num)
  have t35 : (5 : ℤ) ^ (45901612951 : ℕ) % 23150294885385047 = 22231690311954846 :=
    pow_emod_sq_mul 5 22950806475 23150294885385047 4132373330573948 22231690311954846 t34 (by norm_num)
  have t36 : (5 : ℤ) ^ (91803225902 : ℕ) % 23150294885385047 = 3332917774489172 :=
    pow_emod_sq 5 45901612951 23150294885385047 22231690311954846 3332917774489172 t35 (by norm_num)
  exact t36

/-- Square-and-multiply chain: 5 ^ ((P-1)/16807621) mod P. -/
theorem pow_chain_five_p3 : (5 : ℤ) ^ (1377368926 : ℕ) % 23150294885385047 = 14234355009030298 := by
  have t0 : (5 : ℤ) ^ (1 : ℕ) % 23150294885385047 = 5 := by norm_num
  have t1 : (5 : ℤ) ^ (2 : ℕ) % 23150294885385047 = 25 :=
    pow_emod_sq 5 1 23150294885385047 5 25 t0 (by norm_num)
  have t2 : (5 : ℤ) ^ (5 : ℕ) % 23150294885385047 = 3125 :=
    pow_emod_sq_mul 5 2 23150294885385047 25 3125 t1 (by norm_num)
  have t3 : (5 : ℤ) ^ (10 : ℕ) % 23150294885385047 = 9765625 :=
    pow_emod_sq 5 5 23150294885385047 3125 9765625 t2 (by norm_num)
  have t4 : (5 : ℤ) ^ (20 : ℕ) % 23150294885385047 = 95367431640625 :=
    pow_emod_sq 5 10 23150294885385047 9765625 95367431640625 t3 (by norm_num)
  have t5 : (5 : ℤ) ^ (41 : ℕ) % 23150294885385047 = 6347956710242882 :=
    pow_emod_sq_mul 5 20 23150294885385047 95367431640625 6347956710242882 t4 (by norm_num)
  have t6 : (5 : ℤ) ^ (82 : ℕ) % 23150294885385047 = 12198816428534883 :=
    pow_emod_sq 5 41 23150294885385047 6347956710242882 12198816428534883 t5 (by norm_num)
  have t7 : (5 : ℤ) ^ (164 : ℕ) % 23150294885385047 = 361712635088426 :=
    pow_emod_sq 5 82 23150294885385047 12198816428534883 361712635088426 t6 (by norm_num)
  have t8 : (5 : ℤ) ^ (328 : ℕ) % 23150294885385047 = 9952034249468807 :=
    pow_emod_sq 5 164 23150294885385047 361712635088426 9952034249468807 t7 (by norm_num)
  have t9 : (5 : ℤ) ^ (656 : ℕ) % 23150294885385047 = 11393633109359135 :=
    pow_emod_sq 5 328 23150294885385047 9952034249468807 11393633109359135 t8 (by norm_num)
  have t10 : (5 : ℤ) ^ (1313 : ℕ) % 23150294885385047 = 8989178889795596 :=
    pow_emod_sq_mul 5 656 23150294885385047 11393633109359135 8989178889795596 t9 (by norm_num)
  have t11 : (5 : ℤ) ^ (2627 : ℕ) % 23150294885385047 = 2815192891888854 :=
    pow_emod_sq_mul 5 1313 23150294885385047 8989178889795596 2815192891888854 t10 (by norm_num)
  have t12 : (5 : ℤ) ^ (5254 : ℕ) % 23150294885385047 = 2153441450109962 :=
    pow_emod_sq 5 2627 23150294885385047 2815192891888854 2153441450109962 t11 (by norm_num)
  have t13 : (5 : ℤ) ^ (10508 : ℕ) % 23150294885385047 = 9311808124153839 :=
    pow_emod_sq 5 5254 23150294885385047 2153441450109962 9311808124153839 t12 (by norm_num)
  have t14 : (5 : ℤ) ^ (21016 : ℕ) % 23150294885385047 = 2097617531100321 :=
    pow_emod_sq 5 10508 23150294885385047 9311808124153839 2097617531100321 t13 (by norm_num)
  have t15 : (5 : ℤ) ^ (42033 : ℕ) % 23150294885385047 = 18994318194928958 :=
    pow_emod_sq_mul 5 21016 23150294885385047 2097617531100321 18994318194928958 t14 (by norm_num)
  have t16 : (5 : ℤ) ^ (84067 : ℕ) % 23150294885385047 = 14335546626278107 :=
    pow_emod_sq_mul 5 42033 23150294885385047 18994318194928958 14335546626278107 t15 (by norm_num)
  have t17 : (5 : ℤ) ^ (168135 : ℕ) % 23150294885385047 = 8686297678707727 :=
    pow_emod_sq_mul 5 84067 23150294885385047 14335546626278107 8686297678707727 t16 (by norm_num)
  have t18 : (5 : ℤ) ^ (336271 : ℕ) % 23150294885385047 = 3347146593355781 :=
    pow_emod_sq_mul 5 168135 23150294885385047 8686297678707727 3347146593355781 t17 (by norm_num)
  have t19 : (5 : ℤ) ^ (672543 : ℕ) % 23150294885385047 = 19436180750622168 :=
    pow_emod_sq_mul 5 336271 23150294885385047 3347146593355781 19436180750622168 t18 (by norm_num)
  have t20 : (5 : ℤ) ^ (1345086 : ℕ) % 23150294885385047 = 6099134245462948 :=
    pow_emod_sq 5 672543 23150294885385047 19436180750622168 6099134245462948 t19 (by norm_num)
  have t21 : (5 : ℤ) ^ (2690173 : ℕ) % 23150294885385047 = 3851209666671477 :=
    pow_emod_sq_mul 5 1345086 23150294885385047 6099134245462948 3851209666671477 t20 (by norm_num)
  have t22 : (5 : ℤ) ^ (5380347 : ℕ) % 23150294885385047 = 3691606842421329 :=
    pow_emod_sq_mul 5 2690173 23150294885385047 3851209666671477 3691606842421329 t21 (by norm_num)
  have t23 : (5 : ℤ) ^ (10760694 : ℕ) % 23150294885385047 = 2252009290056473 :=
    pow_emod_sq 5 5380347 23150294885385047 3691606842421329 2252009290056473 t22 (by norm_num)
  have t24 : (5 : ℤ) ^ (21521389 : ℕ) % 23150294885385047 = 2908817229869731 :=
    pow_emod_sq_mul 5 10760694 23150294885385047 2252009290056473 2908817229869731 t23 (by norm_num)
  have t25 : (5 : ℤ) ^ (43042778 : ℕ) % 23150294885385047 = 14886465122996268 :=
    pow_emod_sq 5 21521389 23150294885385047 2908817229869731 14886465122996268 t24 (by norm_num)
  have t26 : (5 : ℤ) ^ (86085557 : ℕ) % 23150294885385047 = 5907438420266718 :=
    pow_emod_sq_mul 5 43042778 23150294885385047 14886465122996268 5907438420266718 t25 (by norm_num)
  have t27 : (5 : ℤ) ^ (172171115 : ℕ) % 23150294885385047 = 22642974419324987 :=
    pow_emod_sq_mul 5 86085557 23150294885385047 5907438420266718 22642974419324987 t26 (by norm_num)
  have t28 : (5 : ℤ) ^ (344342231 : ℕ) % 23150294885385047 = 8883595296942370 :=
    pow_emod_sq_mul 5 172171115 23150294885385047 22642974419324987 8883595296942370 t27 (by norm_num)
  have t29 : (5 : ℤ) ^ (688684463 : ℕ) % 23150294885385047 = 17308931356458994 :=
    pow_emod_sq_mul 5 344342231 23150294885385047 8883595296942370 17308931356458994 t28 (by norm_num)
  have t30 : (5 : ℤ) ^ (1377368926 : ℕ) % 23150294885385047 = 14234355009030298 :=
    pow_emod_sq 5 688684463 23150294885385047 17308931356458994 14234355009030298 t29 (by norm_num)
  exact t30

/-- Square-and-multiply chain: 2 ^ 11575147442692524 mod P, the power computed by the descent's first iteration (the float-rounded exponent). -/
theorem pow_chain_two_desc : (2 : ℤ) ^ (11575147442692524 : ℕ) % 23150294885385047 = 2 := by
  have t0 : (2 : ℤ) ^ (1 : ℕ) % 23150294885385047 = 2 := by norm_num
  have t1 : (2 : ℤ) ^ (2 : ℕ) % 23150294885385047 = 4 :=
    pow_emod_sq 2 1 23150294885385047 2 4 t0 (by norm_num)
  have t2 : (2 : ℤ) ^ (5 : ℕ) % 23150294885385047 = 32 :=
    pow_emod_sq_mul 2 2 23150294885385047 4 32 t1 (by norm_num)
  have t3 : (2 : ℤ) ^ (10 : ℕ) % 23150294885385047 = 1024 :=
    pow_emod_sq 2 5 23150294885385047 32 1024 t2 (by norm_num)
  have t4 : (2 : ℤ) ^ (20 : ℕ) % 23150294885385047 = 1048576 :=
    pow_emod_sq 2 10 23150294885385047 1024 1048576 t3 (by norm_num)
  have t5 : (2 : ℤ) ^ (41 : ℕ) % 23150294885385047 = 2199023255552 :=
    pow_emod_sq_mul 2 20 23150294885385047 1048576 2199023255552 t4 (by norm_num)
  have t6 : (2 : ℤ) ^ (82 : ℕ) % 23150294885385047 = 411683072473234 :=
    pow_emod_sq 2 41 23150294885385047 2199023255552 411683072473234 t5 (by norm_num)
  have t7 : (2 : ℤ) ^ (164 : ℕ) % 23150294885385047 = 3291308405119933 :=
    pow_emod_sq 2 82 23150294885385047 411683072473234 3291308405119933 t6 (by norm_num)
  have t8 : (2 : ℤ) ^ (328 : ℕ) % 23150294885385047 = 6329042344097299 :=
    pow_emod_sq 2 164 23150294885385047 3291308405119933 6329042344097299 t7 (by norm_num)
  have t9 : (2 : ℤ) ^ (657 : ℕ) % 23150294885385047 = 16051460548721457 :=
    pow_emod_sq_mul 2 328 23150294885385047 6329042344097299 16051460548721457 t8 (by norm_num)
  have t10 : (2 : ℤ) ^ (1315 : ℕ) % 23150294885385047 = 4758441770536470 :=
    pow_emod_sq_mul 2 657 23150294885385047 16051460548721457 4758441770536470 t9 (by norm_num)
  have t11 : (2 : ℤ) ^ (2631 : ℕ) % 23150294885385047 = 9567851781886873 :=
    pow_emod_sq_mul 2 1315 23150294885385047 4758441770536470 9567851781886873 t10 (by norm_num)
  have t12 : (2 : ℤ) ^ (5263 : ℕ) % 23150294885385047 = 12157333370558889 :=
    pow_emod_sq_mul 2 2631 23150294885385047 9567851781886873 12157333370558889 t11 (by norm_num)
  have t13 : (2 : ℤ) ^ (10527 : ℕ) % 23150294885385047 = 9776661820171330 :=
    pow_emod_sq_mul 2 5263 23150294885385047 12157333370558889 9776661820171330 t12 (by norm_num)
  have t14 : (2 : ℤ) ^ (21055 : ℕ) % 23150294885385047 = 14866417767136807 :=
    pow_emod_sq_mul 2 10527 23150294885385047 9776661820171330 14866417767136807 t13 (by norm_num)
  have t15 : (2 : ℤ) ^ (42110 : ℕ) % 23150294885385047 = 7031232148811550 :=
    pow_emod_sq 2 21055 23150294885385047 14866417767136807 7031232148811550 t14 (by norm_num)
  have t16 : (2 : ℤ) ^ (84220 : ℕ) % 23150294885385047 = 13424346775788219 :=
    pow_emod_sq 2 42110 23150294885385047 7031232148811550 13424346775788219 t15 (by norm_num)
  have t17 : (2 : ℤ) ^ (168440 : ℕ) % 23150294885385047 = 18195546462948967 :=
    pow_emod_sq 2 84220 23150294885385047 13424346775788219 18195546462948967 t16 (by norm_num)
  have t18 : (2 : ℤ) ^ (336881 : ℕ) % 23150294885385047 = 7216958961512626 :=
    pow_emod_sq_mul 2 168440 23150294885385047 18195546462948967 7216958961512626 t17 (by norm_num)
  have t19 : (2 : ℤ) ^ (673762 : ℕ) % 23150294885385047 = 10820808825426286 :=
    pow_emod_sq 2 336881 23150294885385047 7216958961512626 10820808825426286 t18 (by norm_num)
  have t20 : (2 : ℤ) ^ (1347524 : ℕ) % 23150294885385047 = 9937527611876079 :=
    pow_emod_sq 2 673762 23150294885385047 10820808825426286 9937527611876079 t19 (by norm_num)
  have t21 : (2 : ℤ) ^ (2695049 : ℕ) % 23150294885385047 = 18770377436796829 :=
    pow_emod_sq_mul 2 1347524 23150294885385047 9937527611876079 18770377436796829 t20 (by norm_num)
  have t22 : (2 : ℤ) ^ (5390098 : ℕ) % 23150294885385047 = 1476106428840770 :=
    pow_emod_sq 2 2695049 23150294885385047 18770377436796829 1476106428840770 t21 (by norm_num)
  have t23 : (2 : ℤ) ^ (10780196 : ℕ) % 23150294885385047 = 19994351256933638 :=
    pow_emod_sq 2 5390098 23150294885385047 1476106428840770 19994351256933638 t22 (by norm_num)
  have t24 : (2 : ℤ) ^ (21560392 : ℕ) % 23150294885385047 = 9606057840433685 :=
    pow_emod_sq 2 10780196 23150294885385047 19994351256933638 9606057840433685 t23 (by norm_num)
  have t25 : (2 : ℤ) ^ (43120784 : ℕ) % 23150294885385047 = 15929873660420738 :=
    pow_emod_sq 2 21560392 23150294885385047 9606057840433685 15929873660420738 t24 (by norm_num)
  have t26 : (2 : ℤ) ^ (86241568 : ℕ) % 23150294885385047 = 8640414218351114 :=
    pow_emod_sq 2 43120784 23150294885385047 15929873660420738 8640414218351114 t25 (by norm_num)
  have t27 : (2 : ℤ) ^ (172483137 : ℕ) % 23150294885385047 = 15225783207037780 :=
    pow_emod_sq_mul 2 86241568 23150294885385047 8640414218351114 15225783207037780 t26 (by norm_num)
  have t28 : (2 : ℤ) ^ (344966275 : ℕ) % 23150294885385047 = 1609023935723897 :=
    pow_emod_sq_mul 2 172483137 23150294885385047 15225783207037780 1609023935723897 t27 (by norm_num)
  have t29 : (2 : ℤ) ^ (689932551 : ℕ) % 23150294885385047 = 17826029277853274 :=
    pow_emod_sq_mul 2 344966275 23150294885385047 1609023935723897 17826029277853274 t28 (by norm_num)
  have t30 : (2 : ℤ) ^ (1379865103 : ℕ) % 23150294885385047 = 16677080099401862 :=
    pow_emod_sq_mul 2 689932551 23150294885385047 17826029277853274 16677080099401862 t29 (by norm_num)
  have t31 : (2 : ℤ) ^ (2759730206 : ℕ) % 23150294885385047 = 21389737617750296 :=
    pow_emod_sq 2 1379865103 23150294885385047 16677080099401862 21389737617750296 t30 (by norm_num)
  have t32 : (2 : ℤ) ^ (5519460412 : ℕ) % 23150294885385047 = 9497776831047117 :=
    pow_emod_sq 2 2759730206 23150294885385047 21389737617750296 9497776831047117 t31 (by norm_num)
  have t33 : (2 : ℤ) ^ (11038920824 : ℕ) % 23150294885385047 = 2566167954075668 :=
    pow_emod_sq 2 5519460412 23150294885385047 9497776831047117 2566167954075668 t32 (by norm_num)
  have t34 : (2 : ℤ) ^ (22077841649 : ℕ) % 23150294885385047 = 17569403996618159 :=
    pow_emod_sq_mul 2 11038920824 23150294885385047 2566167954075668 17569403996618159 t33 (by norm_num)
  have t35 : (2 : ℤ) ^ (44155683298 : ℕ) % 23150294885385047 = 5771022859986387 :=
    pow_emod_sq 2 22077841649 23150294885385047 17569403996618159 5771022859986387 t34 (by norm_num)
  have t36 : (2 : ℤ) ^ (88311366597 : ℕ) % 23150294885385047 = 19110056992403418 :=
    pow_emod_sq_mul 2 44155683298 23150294885385047 5771022859986387 19110056992403418 t35 (by norm_num)
  have t37 : (2 : ℤ) ^ (176622733195 : ℕ) % 23150294885385047 = 12281771721124671 :=
    pow_emod_sq_mul 2 88311366597 23150294885385047 19110056992403418 12281771721124671 t36 (by norm_num)
  have t38 : (2 : ℤ) ^ (353245466390 : ℕ) % 23150294885385047 = 4703431993754586 :=
    pow_emod_sq 2 176622733195 23150294885385047 12281771721124671 4703431993754586 t37 (by norm_num)
  have t39 : (2 : ℤ) ^ (706490932781 : ℕ) % 23150294885385047 = 16702567259970671 :=
    pow_emod_sq_mul 2 353245466390 23150294885385047 4703431993754586 16702567259970671 t38 (by norm_num)
  have t40 : (2 : ℤ) ^ (1412981865563 : ℕ) % 23150294885385047 = 8285915496384925 :=
    pow_emod_sq_mul 2 706490932781 23150294885385047 16702567259970671 8285915496384925 t39 (by norm_num)
  have t41 : (2 : ℤ) ^ (2825963731126 : ℕ) % 23150294885385047 = 2137185467771812 :=
    pow_emod_sq 2 1412981865563 23150294885385047 8285915496384925 2137185467771812 t40 (by norm_num)
  have t42 : (2 : ℤ) ^ (5651927462252 : ℕ) % 23150294885385047 = 8593454192219531 :=
    pow_emod_sq 2 2825963731126 23150294885385047 2137185467771812 8593454192219531 t41 (by norm_num)
  have t43 : (2 : ℤ) ^ (11303854924504 : ℕ) % 23150294885385047 = 7503617320362873 :=
    pow_emod_sq 2 5651927462252 23150294885385047 8593454192219531 7503617320362873 t42 (by norm_num)
  have t44 : (2 : ℤ) ^ (22607709849008 : ℕ) % 23150294885385047 = 22473229182408589 :=
    pow_emod_sq 2 11303854924504 23150294885385047 7503617320362873 22473229182408589 t43 (by norm_num)
  have t45 : (2 : ℤ) ^ (45215419698017 : ℕ) % 23150294885385047 = 5651577726512590 :=
    pow_emod_sq_mul 2 22607709849008 23150294885385047 22473229182408589 5651577726512590 t44 (by norm_num)
  have t46 : (2 : ℤ) ^ (90430839396035 : ℕ) % 23150294885385047 = 10675139050663274 :=
    pow_emod_sq_mul 2 45215419698017 23150294885385047 5651577726512590 10675139050663274 t45 (by norm_num)
  have t47 : (2 : ℤ) ^ (180861678792070 : ℕ) % 23150294885385047 = 7517046564225280 :=
    pow_emod_sq 2 90430839396035 23150294885385047 10675139050663274 7517046564225280 t46 (by norm_num)
  have t48 : (2 : ℤ) ^ (361723357584141 : ℕ) % 23150294885385047 = 10910940066129217 :=
    pow_emod_sq_mul 2 180861678792070 23150294885385047 7517046564225280 10910940066129217 t47 (by norm_num)
  have t49 : (2 : ℤ) ^ (723446715168282 : ℕ) % 23150294885385047 = 18534695616134898 :=
    pow_emod_sq 2 361723357584141 23150294885385047 10910940066129217 18534695616134898 t48 (by norm_num)
  have t50 : (2 : ℤ) ^ (1446893430336565 : ℕ) % 23150294885385047 = 17356956639716623 :=
    pow_emod_sq_mul 2 723446715168282 23150294885385047 18534695616134898 17356956639716623 t49 (by norm_num)
  have t51 : (2 : ℤ) ^ (2893786860673131 : ℕ) % 23150294885385047 = 11587877278670908 :=
    pow_emod_sq_mul 2 1446893430336565 23150294885385047 17356956639716623 11587877278670908 t50 (by norm_num)
  have t52 : (2 : ℤ) ^ (5787573721346262 : ℕ) % 23150294885385047 = 15511358197927356 :=
    pow_emod_sq 2 2893786860673131 23150294885385047 11587877278670908 15511358197927356 t51 (by norm_num)
  have t53 : (2 : ℤ) ^ (11575147442692524 : ℕ) % 23150294885385047 = 2 :=
    pow_emod_sq 2 5787573721346262 23150294885385047 15511358197927356 2 t52 (by norm_num)
  exact t53

/-- Transfer of a concrete power-residue computation into `ZMod P`. -/
theorem zmod_pow_from_chain (P : ℕ) (g : ℤ) (e : ℕ) (r : ℤ)
    (h : g ^ e % (P : ℤ) = r) : ((g : ZMod P)) ^ e = ((r : ℤ) : ZMod P) := by
  have h2 : ((g ^ e % (P : ℤ) : ℤ) : ZMod P) = ((g ^ e : ℤ) : ZMod P) :=
    ZMod.intCast_mod _ _
  rw [h] at h2
  calc ((g : ZMod P)) ^ e = ((g ^ e : ℤ) : ZMod P) := by
        push_cast
        ring
    _ = ((r : ℤ) : ZMod P) := h2.symm

/-- Pratt/Lucas primality certificate for P = 23150294885385047: the
witness 5 has order P - 1 = 2 * 2731 * 252173 * 16807621, verified by the
square-and-multiply chains above. -/
theorem prime_P : Nat.Prime 23150294885385047 := by
  have hp1 : Nat.Prime 2731 := by norm_num
  have hp2 : Nat.Prime 252173 := by norm_num
  have hp3 : Nat.Prime 16807621 := by norm_num
  refine lucas_primality 23150294885385047
    (((5 : ℤ)) : ZMod 23150294885385047) ?_ ?_
  · have h1 : (5 : ℤ) ^ (23150294885385046 : ℕ) % 23150294885385047 = 1 :=
      pow_emod_sq 5 11575147442692523 23150294885385047 23150294885385046 1
        pow_chain_five_half (by norm_num)
    have h2 := zmod_pow_from_chain 23150294885385047 5 23150294885385046 1 h1
    rw [show (23150294885385047 : ℕ) - 1 = 23150294885385046 by norm_num, h2]
    exact Int.cast_one
  · intro r hr hdvd
    rw [show (23150294885385047 : ℕ) - 1 = 23150294885385046 by norm_num]
      at hdvd ⊢
    have hfact : (23150294885385046 : ℕ) = 2 * (2731 * (252173 * 16807621)) := by
      norm_num
    rw [hfact] at hdvd
    have hne : ∀ (E : ℕ) (V : ℤ),
        (5 : ℤ) ^ E % 23150294885385047 = V → V ≠ 1 → 0 ≤ V →
        V < 23150294885385047 →
        (((5 : ℤ)) : ZMod 23150294885385047) ^ E ≠ 1 := by
      intro E V hchain hV hV0 hVlt hcon
      have h2 := zmod_pow_from_chain 23150294885385047 5 E V hchain
      rw [h2] at hcon
      refine hV ?_
      refine int_eq_of_cast_zmod_eq 23150294885385047 V 1 hV0
        (by exact_mod_cast hVlt) (by norm_num) (by norm_num) ?_
      rw [hcon]
      exact Int.cast_one.symm
    have hr2 : r = 2 ∨ r = 2731 ∨ r = 252173 ∨ r = 16807621 := by
      rcases (Nat.Prime.dvd_mul hr).mp hdvd with h | h
      · exact Or.inl ((Nat.prime_dvd_prime_iff_eq hr Nat.prime_two).mp h)
      · rcases (Nat.Prime.dvd_mul hr).mp h with h' | h'
        · exact Or.inr (Or.inl ((Nat.prime_dvd_prime_iff_eq hr hp1).mp h'))
        · rcases (Nat.Prime.dvd_mul hr).mp h' with h'' | h''
          · exact Or.inr (Or.inr (Or.inl
              ((Nat.prime_dvd_prime_iff_eq hr hp2).mp h'')))
          · exact Or.inr (Or.inr (Or.inr
              ((Nat.prime_dvd_prime_iff_eq hr hp3).mp h'')))
    rcases hr2 with rfl | rfl | rfl | rfl
    · rw [show (23150294885385046 : ℕ) / 2 = 11575147442692523 by norm_num]
      exact hne _ _ pow_chain_five_half (by norm_num) (by norm_num) (by norm_num)
    · rw [show (23150294885385046 : ℕ) / 2731 = 8476856420866 by norm_num]
      exact hne _ _ pow_chain_five_p1 (by norm_num) (by norm_num) (by norm_num)
    · rw [show (23150294885385046 : ℕ) / 252173 = 91803225902 by norm_num]
      exact hne _ _ pow_chain_five_p2 (by norm_num) (by norm_num) (by norm_num)
    · rw [show (23150294885385046 : ℕ) / 16807621 = 1377368926 by norm_num]
      exact hne _ _ pow_chain_five_p3 (by norm_num) (by norm_num) (by norm_num)

theorem mr_go_succ (N : ℕ) (draws : ℕ → ℕ) (n i : ℕ) :
    mr_go N draws (n + 1) i =
      if mod_exp ((draws i : ℕ) : ℤ) (N - 1) (N : ℤ) = 1 then
        if mr_descent (draws i) N (N - 1) 1 % (N : ℤ) ≠ (N : ℤ) - 1 ∧
            mr_descent (draws i) N (N - 1) 1 % (N : ℤ) ≠ 1 then "composite"
        else mr_go N draws n (i + 1)
      else "composite" := rfl

/-- Evaluation of `mod_exp(2, 11575147442692524, 23150294885385047)` by
unfolding the recursion of `mod_exp` once per bit of the exponent (the
exponent is the float-rounded value produced by the descent). -/
theorem cex_hz1 : mod_exp ((2 : ℕ) : ℤ) (11575147442692524 : ℕ) ((23150294885385047 : ℕ) : ℤ) = 2 := by
  have h0 : mod_exp ((2 : ℕ) : ℤ) (0 : ℕ) ((23150294885385047 : ℕ) : ℤ) = 1 := mod_exp_zero _ _
  have h1 : mod_exp ((2 : ℕ) : ℤ) (1 : ℕ) ((23150294885385047 : ℕ) : ℤ) = 2 := by
    rw [mod_exp_pos_eq _ _ _ (by norm_num), if_neg (by norm_num),
      show (1 : ℕ) / 2 = 0 by norm_num, h0]
    norm_num
  have h2 : mod_exp ((2 : ℕ) : ℤ) (2 : ℕ) ((23150294885385047 : ℕ) : ℤ) = 4 := by
    rw [mod_exp_pos_eq _ _ _ (by norm_num), if_pos (by norm_num),
      show (2 : ℕ) / 2 = 1 by norm_num, h1]
    norm_num
  have h3 : mod_exp ((2 : ℕ) : ℤ) (5 : ℕ) ((23150294885385047 : ℕ) : ℤ) = 32 := by
    rw [mod_exp_pos_eq _ _ _ (by norm_num), if_neg (by norm_num),
      show (5 : ℕ) / 2 = 2 by norm_num, h2]
    norm_num
  have h4 : mod_exp ((2 : ℕ) : ℤ) (10 : ℕ) ((23150294885385047 : ℕ) : ℤ) = 1024 := by
    rw [mod_exp_pos_eq _ _ _ (by norm_num), if_pos (by norm_num),
      show (10 : ℕ) / 2 = 5 by norm_num, h3]
    norm_num
  have h5 : mod_exp ((2 : ℕ) : ℤ) (20 : ℕ) ((23150294885385047 : ℕ) : ℤ) = 1048576 := by
    rw [mod_exp_pos_eq _ _ _ (by norm_num), if_pos (by norm_num),
      show (20 : ℕ) / 2 = 10 by norm_num, h4]
    norm_num
  have h6 : mod_exp ((2 : ℕ) : ℤ) (41 : ℕ) ((23150294885385047 : ℕ) : ℤ) = 2199023255552 := by
    rw [mod_exp_pos_eq _ _ _ (by norm_num), if_neg (by norm_num),
      show (41 : ℕ) / 2 = 20 by norm_num, h5]
    norm_num
  have h7 : mod_exp ((2 : ℕ) : ℤ) (82 : ℕ) ((23150294885385047 : ℕ) : ℤ) = 411683072473234 := by
    rw [mod_exp_pos_eq _ _ _ (by norm_num), if_pos (by norm_num),
      show (82 : ℕ) / 2 = 41 by norm_num, h6]
    norm_num
  have h8 : mod_exp ((2 : ℕ) : ℤ) (164 : ℕ) ((23150294885385047 : ℕ) : ℤ) = 3291308405119933 := by
    rw [mod_exp_pos_eq _ _ _ (by norm_num), if_pos (by norm_num),
      show (164 : ℕ) / 2 = 82 by norm_num, h7]
    norm_num
  have h9 : mod_exp ((2 : ℕ) : ℤ) (328 : ℕ) ((23150294885385047 : ℕ) : ℤ) = 6329042344097299 := by
    rw [mod_exp_pos_eq _ _ _ (by norm_num), if_pos (by norm_num),
      show (328 : ℕ) / 2 = 164 by norm_num, h8]
    norm_num
  have h10 : mod_exp ((2 : ℕ) : ℤ) (657 : ℕ) ((23150294885385047 : ℕ) : ℤ) = 16051460548721457 := by
    rw [mod_exp_pos_eq _ _ _ (by norm_num), if_neg (by norm_num),
      show (657 : ℕ) / 2 = 328 by norm_num, h9]
    norm_num
  have h11 : mod_exp ((2 : ℕ) : ℤ) (1315 : ℕ) ((23150294885385047 : ℕ) : ℤ) = 4758441770536470 := by
    rw [mod_exp_pos_eq _ _ _ (by norm_num), if_neg (by norm_num),
      show (1315 : ℕ) / 2 = 657 by norm_num, h10]
    norm_num
  have h12 : mod_exp ((2 : ℕ) : ℤ) (2631 : ℕ) ((23150294885385047 : ℕ) : ℤ) = 9567851781886873 := by
    rw [mod_exp_pos_eq _ _ _ (by norm_num), if_neg (by norm_num),
      show (2631 : ℕ) / 2 = 1315 by norm_num, h11]
    norm_num
  have h13 : mod_exp ((2 : ℕ) : ℤ) (5263 : ℕ) ((23150294885385047 : ℕ) : ℤ) = 12157333370558889 := by
    rw [mod_exp_pos_eq _ _ _ (by norm_num), if_neg (by norm_num),
      show (5263 : ℕ) / 2 = 2631 by norm_num, h12]
    norm_num
  have h14 : mod_exp ((2 : ℕ) : ℤ) (10527 : ℕ) ((23150294885385047 : ℕ) : ℤ) = 9776661820171330 := by
    rw [mod_exp_pos_eq _ _ _ (by norm_num), if_neg (by norm_num),
      show (10527 : ℕ) / 2 = 5263 by norm_num, h13]
    norm_num
  have h15 : mod_exp ((2 : ℕ) : ℤ) (21055 : ℕ) ((23150294885385047 : ℕ) : ℤ) = 14866417767136807 := by
    rw [mod_exp_pos_eq _ _ _ (by norm_num), if_neg (by norm_num),
      show (21055 : ℕ) / 2 = 10527 by norm_num, h14]
    norm_num
  have h16 : mod_exp ((2 : ℕ) : ℤ) (42110 : ℕ) ((23150294885385047 : ℕ) : ℤ) = 7031232148811550 := by
    rw [mod_exp_pos_eq _ _ _ (by norm_num), if_pos (by norm_num),
      show (42110 : ℕ) / 2 = 21055 by norm_num, h15]
    norm_num
  have h17 : mod_exp ((2 : ℕ) : ℤ) (84220 : ℕ) ((23150294885385047 : ℕ) : ℤ) = 13424346775788219 := by
    rw [mod_exp_pos_eq _ _ _ (by norm_num), if_pos (by norm_num),
      show (84220 : ℕ) / 2 = 42110 by norm_num, h16]
    norm_num
  have h18 : mod_exp ((2 : ℕ) : ℤ) (168440 : ℕ) ((23150294885385047 : ℕ) : ℤ) = 18195546462948967 := by
    rw [mod_exp_pos_eq _ _ _ (by norm_num), if_pos (by norm_num),
      show (168440 : ℕ) / 2 = 84220 by norm_num, h17]
    norm_num
  have h19 : mod_exp ((2 : ℕ) : ℤ) (336881 : ℕ) ((23150294885385047 : ℕ) : ℤ) = 7216958961512626 := by
    rw [mod_exp_pos_eq _ _ _ (by norm_num), if_neg (by norm_num),
      show (336881 : ℕ) / 2 = 168440 by norm_num, h18]
    norm_num
  have h20 : mod_exp ((2 : ℕ) : ℤ) (673762 : ℕ) ((23150294885385047 : ℕ) : ℤ) = 10820808825426286 := by
    rw [mod_exp_pos_eq _ _ _ (by norm_num), if_pos (by norm_num),
      show (673762 : ℕ) / 2 = 336881 by norm_num, h19]
    norm_num
  have h21 : mod_exp ((2 : ℕ) : ℤ) (1347524 : ℕ) ((23150294885385047 : ℕ) : ℤ) = 9937527611876079 := by
    rw [mod_exp_pos_eq _ _ _ (by norm_num), if_pos (by norm_num),
      show (1347524 : ℕ) / 2 = 673762 by norm_num, h20]
    norm_num
  have h22 : mod_exp ((2 : ℕ) : ℤ) (2695049 : ℕ) ((23150294885385047 : ℕ) : ℤ) = 18770377436796829 := by
    rw [mod_exp_pos_eq _ _ _ (by norm_num), if_neg (by norm_num),
      show (2695049 : ℕ) / 2 = 1347524 by norm_num, h21]
    norm_num
  have h23 : mod_exp ((2 : ℕ) : ℤ) (5390098 : ℕ) ((23150294885385047 : ℕ) : ℤ) = 1476106428840770 := by
    rw [mod_exp_pos_eq _ _ _ (by norm_num), if_pos (by norm_num),
      show (5390098 : ℕ) / 2 = 2695049 by norm_num, h22]
    norm_num
  have h24 : mod_exp ((2 : ℕ) : ℤ) (10780196 : ℕ) ((23150294885385047 : ℕ) : ℤ) = 19994351256933638 := by
    rw [mod_exp_pos_eq _ _ _ (by norm_num), if_pos (by norm_num),
      show (10780196 : ℕ) / 2 = 5390098 by norm_num, h23]
    norm_num
  have h25 : mod_exp ((2 : ℕ) : ℤ) (21560392 : ℕ) ((23150294885385047 : ℕ) : ℤ) = 9606057840433685 := by
    rw [mod_exp_pos_eq _ _ _ (by norm_num), if_pos (by norm_num),
      show (21560392 : ℕ) / 2 = 10780196 by norm_num, h24]
    norm_num
  have h26 : mod_exp ((2 : ℕ) : ℤ) (43120784 : ℕ) ((23150294885385047 : ℕ) : ℤ) = 15929873660420738 := by
    rw [mod_exp_pos_eq _ _ _ (by norm_num), if_pos (by norm_num),
      show (43120784 : ℕ) / 2 = 21560392 by norm_num, h25]
    norm_num
  have h27 : mod_exp ((2 : ℕ) : ℤ) (86241568 : ℕ) ((23150294885385047 : ℕ) : ℤ) = 8640414218351114 := by
    rw [mod_exp_pos_eq _ _ _ (by norm_num), if_pos (by norm_num),
      show (86241568 : ℕ) / 2 = 43120784 by norm_num, h26]
    norm_num
  have h28 : mod_exp ((2 : ℕ) : ℤ) (172483137 : ℕ) ((23150294885385047 : ℕ) : ℤ) = 15225783207037780 := by
    rw [mod_exp_pos_eq _ _ _ (by norm_num), if_neg (by norm_num),
      show (172483137 : ℕ) / 2 = 86241568 by norm_num, h27]
    norm_num
  have h29 : mod_exp ((2 : ℕ) : ℤ) (344966275 : ℕ) ((23150294885385047 : ℕ) : ℤ) = 1609023935723897 := by
    rw [mod_exp_pos_eq _ _ _ (by norm_num), if_neg (by norm_num),
      show (344966275 : ℕ) / 2 = 172483137 by norm_num, h28]
    norm_num
  have h30 : mod_exp ((2 : ℕ) : ℤ) (689932551 : ℕ) ((23150294885385047 : ℕ) : ℤ) = 17826029277853274 := by
    rw [mod_exp_pos_eq _ _ _ (by norm_num), if_neg (by norm_num),
      show (689932551 : ℕ) / 2 = 344966275 by norm_num, h29]
    norm_num
  have h31 : mod_exp ((2 : ℕ) : ℤ) (1379865103 : ℕ) ((23150294885385047 : ℕ) : ℤ) = 16677080099401862 := by
    rw [mod_exp_pos_eq _ _ _ (by norm_num), if_neg (by norm_num),
      show (1379865103 : ℕ) / 2 = 689932551 by norm_num, h30]
    norm_num
  have h32 : mod_exp ((2 : ℕ) : ℤ) (2759730206 : ℕ) ((23150294885385047 : ℕ) : ℤ) = 21389737617750296 := by
    rw [mod_exp_pos_eq _ _ _ (by norm_num), if_pos (by norm_num),
      show (2759730206 : ℕ) / 2 = 1379865103 by norm_num, h31]
    norm_num
  have h33 : mod_exp ((2 : ℕ) : ℤ) (5519460412 : ℕ) ((23150294885385047 : ℕ) : ℤ) = 9497776831047117 := by
    rw [mod_exp_pos_eq _ _ _ (by norm_num), if_pos (by norm_num),
      show (5519460412 : ℕ) / 2 = 2759730206 by norm_num, h32]
    norm_num
  have h34 : mod_exp ((2 : ℕ) : ℤ) (11038920824 : ℕ) ((23150294885385047 : ℕ) : ℤ) = 2566167954075668 := by
    rw [mod_exp_pos_eq _ _ _ (by norm_num), if_pos (by norm_num),
      show (11038920824 : ℕ) / 2 = 5519460412 by norm_num, h33]
    norm_num
  have h35 : mod_exp ((2 : ℕ) : ℤ) (22077841649 : ℕ) ((23150294885385047 : ℕ) : ℤ) = 17569403996618159 := by
    rw [mod_exp_pos_eq _ _ _ (by norm_num), if_neg (by norm_num),
      show (22077841649 : ℕ) / 2 = 11038920824 by norm_num, h34]
    norm_num
  have h36 : mod_exp ((2 : ℕ) : ℤ) (44155683298 : ℕ) ((23150294885385047 : ℕ) : ℤ) = 5771022859986387 := by
    rw [mod_exp_pos_eq _ _ _ (by norm_num), if_pos (by norm_num),
      show (44155683298 : ℕ) / 2 = 22077841649 by norm_num, h35]
    norm_num
  have h37 : mod_exp ((2 : ℕ) : ℤ) (88311366597 : ℕ) ((23150294885385047 : ℕ) : ℤ) = 19110056992403418 := by
    rw [mod_exp_pos_eq _ _ _ (by norm_num), if_neg (by norm_num),
      show (88311366597 : ℕ) / 2 = 44155683298 by norm_num, h36]
    norm_num
  have h38 : mod_exp ((2 : ℕ) : ℤ) (176622733195 : ℕ) ((23150294885385047 : ℕ) : ℤ) = 12281771721124671 := by
    rw [mod_exp_pos_eq _ _ _ (by norm_num), if_neg (by norm_num),
      show (176622733195 : ℕ) / 2 = 88311366597 by norm_num, h37]
    norm_num
  have h39 : mod_exp ((2 : ℕ) : ℤ) (353245466390 : ℕ) ((23150294885385047 : ℕ) : ℤ) = 4703431993754586 := by
    rw [mod_exp_pos_eq _ _ _ (by norm_num), if_pos (by norm_num),
      show (353245466390 : ℕ) / 2 = 176622733195 by norm_num, h38]
    norm_num
  have h40 : mod_exp ((2 : ℕ) : ℤ) (706490932781 : ℕ) ((23150294885385047 : ℕ) : ℤ) = 16702567259970671 := by
    rw [mod_exp_pos_eq _ _ _ (by norm_num), if_neg (by norm_num),
      show (706490932781 : ℕ) / 2 = 353245466390 by norm_num, h39]
    norm_num
  have h41 : mod_exp ((2 : ℕ) : ℤ) (1412981865563 : ℕ) ((23150294885385047 : ℕ) : ℤ) = 8285915496384925 := by
    rw [mod_exp_pos_eq _ _ _ (by norm_num), if_neg (by norm_num),
      show (1412981865563 : ℕ) / 2 = 706490932781 by norm_num, h40]
    norm_num
  have h42 : mod_exp ((2 : ℕ) : ℤ) (2825963731126 : ℕ) ((23150294885385047 : ℕ) : ℤ) = 2137185467771812 := by
    rw [mod_exp_pos_eq _ _ _ (by norm_num), if_pos (by norm_num),
      show (2825963731126 : ℕ) / 2 = 1412981865563 by norm_num, h41]
    norm_num
  have h43 : mod_exp ((2 : ℕ) : ℤ) (5651927462252 : ℕ) ((23150294885385047 : ℕ) : ℤ) = 8593454192219531 := by
    rw [mod_exp_pos_eq _ _ _ (by norm_num), if_pos (by norm_num),
      show (5651927462252 : ℕ) / 2 = 2825963731126 by norm_num, h42]
    norm_num
  have h44 : mod_exp ((2 : ℕ) : ℤ) (11303854924504 : ℕ) ((23150294885385047 : ℕ) : ℤ) = 7503617320362873 := by
    rw [mod_exp_pos_eq _ _ _ (by norm_num), if_pos (by norm_num),
      show (11303854924504 : ℕ) / 2 = 5651927462252 by norm_num, h43]
    norm_num
  have h45 : mod_exp ((2 : ℕ) : ℤ) (22607709849008 : ℕ) ((23150294885385047 : ℕ) : ℤ) = 22473229182408589 := by
    rw [mod_exp_pos_eq _ _ _ (by norm_num), if_pos (by norm_num),
      show (22607709849008 : ℕ) / 2 = 11303854924504 by norm_num, h44]
    norm_num
  have h46 : mod_exp ((2 : ℕ) : ℤ) (45215419698017 : ℕ) ((23150294885385047 : ℕ) : ℤ) = 5651577726512590 := by
    rw [mod_exp_pos_eq _ _ _ (by norm_num), if_neg (by norm_num),
      show (45215419698017 : ℕ) / 2 = 22607709849008 by norm_num, h45]
    norm_num
  have h47 : mod_exp ((2 : ℕ) : ℤ) (90430839396035 : ℕ) ((23150294885385047 : ℕ) : ℤ) = 10675139050663274 := by
    rw [mod_exp_pos_eq _ _ _ (by norm_num), if_neg (by norm_num),
      show (90430839396035 : ℕ) / 2 = 45215419698017 by norm_num, h46]
    norm_num
  have h48 : mod_exp ((2 : ℕ) : ℤ) (180861678792070 : ℕ) ((23150294885385047 : ℕ) : ℤ) = 7517046564225280 := by
    rw [mod_exp_pos_eq _ _ _ (by norm_num), if_pos (by norm_num),
      show (180861678792070 : ℕ) / 2 = 90430839396035 by norm_num, h47]
    norm_num
  have h49 : mod_exp ((2 : ℕ) : ℤ) (361723357584141 : ℕ) ((23150294885385047 : ℕ) : ℤ) = 10910940066129217 := by
    rw [mod_exp_pos_eq _ _ _ (by norm_num), if_neg (by norm_num),
      show (361723357584141 : ℕ) / 2 = 180861678792070 by norm_num, h48]
    norm_num
  have h50 : mod_exp ((2 : ℕ) : ℤ) (723446715168282 : ℕ) ((23150294885385047 : ℕ) : ℤ) = 18534695616134898 := by
    rw [mod_exp_pos_eq _ _ _ (by norm_num), if_pos (by norm_num),
      show (723446715168282 : ℕ) / 2 = 361723357584141 by norm_num, h49]
    norm_num
  have h51 : mod_exp ((2 : ℕ) : ℤ) (1446893430336565 : ℕ) ((23150294885385047 : ℕ) : ℤ) = 17356956639716623 := by
    rw [mod_exp_pos_eq _ _ _ (by norm_num), if_neg (by norm_num),
      show (1446893430336565 : ℕ) / 2 = 723446715168282 by norm_num, h50]
    norm_num
  have h52 : mod_exp ((2 : ℕ) : ℤ) (2893786860673131 : ℕ) ((23150294885385047 : ℕ) : ℤ) = 11587877278670908 := by
    rw [mod_exp_pos_eq _ _ _ (by norm_num), if_neg (by norm_num),
      show (2893786860673131 : ℕ) / 2 = 1446893430336565 by norm_num, h51]
    norm_num
  have h53 : mod_exp ((2 : ℕ) : ℤ) (5787573721346262 : ℕ) ((23150294885385047 : ℕ) : ℤ) = 15511358197927356 := by
    rw [mod_exp_pos_eq _ _ _ (by norm_num), if_pos (by norm_num),
      show (5787573721346262 : ℕ) / 2 = 2893786860673131 by norm_num, h52]
    norm_num
  have h54 : mod_exp ((2 : ℕ) : ℤ) (11575147442692524 : ℕ) ((23150294885385047 : ℕ) : ℤ) = 2 := by
    rw [mod_exp_pos_eq _ _ _ (by norm_num), if_pos (by norm_num),
      show (11575147442692524 : ℕ) / 2 = 5787573721346262 by norm_num, h53]
    norm_num
  exact h54

theorem cex_round : round53 11575147442692523 = 11575147442692524 := by
  have hlog : Nat.log2 11575147442692523 = 53 := by
    rw [Nat.log2_eq_log_two]
    exact Nat.log_eq_of_pow_le_of_lt_pow (by norm_num) (by norm_num)
  rw [round53, hlog]
  norm_num

theorem cex_hdesc :
    mr_descent 2 23150294885385047 (23150294885385047 - 1) 1 = 2 := by
  rw [mr_descent, dif_pos ⟨by norm_num, rfl⟩, dif_neg (by norm_num),
    show (23150294885385047 - 1 : ℕ) / 2 = 11575147442692523 by norm_num,
    cex_round, cex_hz1, mr_descent, dif_neg (by norm_num)]

/-- C4 counterexample: P = 23150294885385047 is prime (certified above by
a Pratt/Lucas certificate), yet `run_miller_rabin(P, 2)` with the valid
witness a = 2 reports "composite": the initial check passes by Fermat's
little theorem, but the descent's float division rounds the odd half
`(P-1)/2 = 11575147442692523` up to `11575147442692524`, and
`2 ^ 11575147442692524 mod P = 2`, which is neither 1 nor P-1. -/
theorem claim_C4_cex :
    Nat.Prime 23150294885385047 ∧ (1 : ℕ) ≤ 2 ∧
      (2 : ℕ) ≤ 23150294885385047 - 1 ∧ (1 : ℕ) ≤ 2 ∧
      run_miller_rabin 23150294885385047 2 (fun _ => 2) = "composite" := by
  refine ⟨prime_P, by norm_num, by norm_num, by norm_num, ?_⟩
  have hflt : mod_exp ((2 : ℕ) : ℤ) (23150294885385047 - 1)
      ((23150294885385047 : ℕ) : ℤ) = 1 :=
    mod_exp_flt 23150294885385047 prime_P 2 (by norm_num) (by norm_num)
  have hcond : mr_descent 2 23150294885385047 (23150294885385047 - 1) 1 %
        ((23150294885385047 : ℕ) : ℤ) ≠ ((23150294885385047 : ℕ) : ℤ) - 1 ∧
      mr_descent 2 23150294885385047 (23150294885385047 - 1) 1 %
        ((23150294885385047 : ℕ) : ℤ) ≠ 1 := by
    rw [cex_hdesc]
    norm_num
  show mr_go 23150294885385047 (fun _ => 2) (2 - 1) 0 = "composite"
  rw [show (2 : ℕ) - 1 = 0 + 1 by norm_num]
  simp only [mr_go_succ]
  rw [if_pos hflt, if_pos hcond]
